import Mathlib

/-!
# Verification of the Autoboat command-and-control core

A shallow embedding of the Sharonrab/Autoboat repository's
command-and-control core, together with proofs about it.

Two modules are embedded:

* `Autoboat.MavNode` — `src/Code/basic_model/clib/mavlink.c`: the MAVLink
  parameter-protocol FSM, mission-protocol FSM, receive dispatcher
  (`MavLinkReceive`) and transmit pass (`MavLinkTransmit`).
* `Autoboat.PrimaryNode` — `src/Code/Primary_node/PrimaryNode.c`: the fault
  aggregator run in `main`'s outer loop (sensor-availability edge detection
  into the sticky `nodeErrors` bitmask, the return-to-base check) and
  `SetAutoMode`.

C machine integers are modelled as `Nat` (resp. `Int` for signed values),
with `% 2^w` taken exactly where the C code's fixed width matters
(`uint8_t` increments, `uint16_t` truncations, `~mask` complements).
Floating-point payloads (actuator command magnitudes, mission coordinates,
parameter float values) are not modelled as numbers; where the code only
tests or forwards them they are carried as bit patterns (`Nat`) or elided
from output events, as noted at each definition.  External calls that only
emit bytes on a UART are modelled as output events accumulated in lists.
-/

namespace Autoboat

namespace MavNode

/-! ## Embedding of `src/Code/basic_model/clib/mavlink.c`

Module-level mutable state of `mavlink.c` (including the function-local
`static` variables of `MavLinkTransmit` and `MavLinkReceive`), the mission
store of the external `MissionManager`, the `systemStatus.status` bitfield
from the generated model code, and the external message scheduler are
gathered into one record `MavState`.

The groundstation-id latch (`groundStationSystemId`/`ComponentId`) and the
`mavlink_system` presentation fields only affect the addressing/content of
encoded frames, never control flow, and are elided; outbound frames are
modelled as `MavOut` events.
-/

/-- Identifiers of the MAVLink messages this module schedules.  Only the
identifiers that actually appear in `MavLinkInit`/`MavLinkTransmit` are
included. -/
inductive MsgId where
  | heartbeat
  | sysStatus
  | gpsRawInt
  | statusAndErrors
  | wso100
  | paramValue
  | missionCount
  | missionItem
deriving DecidableEq, Repr

/-- Modelled from the spec: one periodic registration of the external
message scheduler (`MavlinkMessageScheduler`, not under `src/`):
`{id, period (ticks), next-due tick}`, here kept as a countdown `due`. -/
structure SchedEntry where
  id : MsgId
  period : Nat
  due : Nat
deriving DecidableEq, Repr

/-- Modelled from the spec: the external message scheduler's state —
the periodic registration table plus the FIFO of one-shot transient
requests.  The per-tick byte budget and its deferral path are not
modelled; all theorems below describe the unsaturated channel. -/
structure Sched where
  periodic : List SchedEntry
  transients : List MsgId
deriving DecidableEq, Repr

/-- Modelled from the spec: `register(id, period)` — adds or overwrites
a periodic entry with a fixed cadence in ticks (`AddMessage` in the C). -/
def AddMessage (sch : Sched) (id : MsgId) (period : Nat) : Sched :=
  if sch.periodic.any (fun e => e.id == id) then
    { sch with periodic :=
        sch.periodic.map (fun e => if e.id == id then ⟨id, period, period⟩ else e) }
  else
    { sch with periodic := sch.periodic ++ [⟨id, period, period⟩] }

/-- Modelled from the spec: `requestTransient(id)` — enqueues a one-shot
send (`AddTransientMessage` in the C), FIFO order. -/
def AddTransientMessage (sch : Sched) (id : MsgId) : Sched :=
  { sch with transients := sch.transients ++ [id] }

/-- One countdown step of the periodic table: entries reaching their due
tick are emitted (in table order) and reset to their period. -/
def tickPeriodic : List SchedEntry → List SchedEntry × List MsgId
  | [] => ([], [])
  | e :: rest =>
      let (rest', ids) := tickPeriodic rest
      if e.due ≤ 1 then ({ e with due := e.period } :: rest', e.id :: ids)
      else ({ e with due := e.due - 1 } :: rest', ids)

/-- Modelled from the spec: `tick()` (`IncrementTimestep` in the C) —
advances time one unit; returns all periodic ids due this tick, followed
by the queued transients in FIFO order, clearing the transient queue. -/
def IncrementTimestep (sch : Sched) : Sched × List MsgId :=
  let (p', due) := tickPeriodic sch.periodic
  ({ periodic := p', transients := [] }, due ++ sch.transients)

/-- One stored mission.  The C `Mission` also carries three float
coordinates and four float parameters; those are opaque payload to every
code path modelled here and are elided. -/
structure Mission where
  refFrame : Nat
  action : Nat
  autocontinue : Nat
deriving DecidableEq, Repr

/-- The parameter-protocol FSM states (the `PARAM_STATE_*` enum). -/
inductive ParamState where
  | inactive
  | singletonTransmitStart
  | singletonTransmitWaiting
  | streamTransmitStart
  | streamTransmitParam
  | streamTransmitWaiting
  | streamTransmitDelay
deriving DecidableEq, Repr

/-- The mission-protocol FSM states (the `MISSION_STATE_*` enum). -/
inductive MissionState where
  | inactive
  | requestListStart
  | requestListCountdown
  | requestListResponse
  | requestListWaiting
deriving DecidableEq, Repr

/-- `static uint16_t parameterCount = 4;` -/
def parameterCount : Nat := 4

/-- The complete mutable state of the `mavlink.c` module together with the
external collaborators it drives (mission store, scheduler) and reads
(`systemStatus.status`). -/
structure MavState where
  /-- `parameterProtocolState` -/
  parameterProtocolState : ParamState
  /-- `currentParameter` (`uint8_t`) -/
  currentParameter : Nat
  /-- `static uint8_t delayCountdown` in `MavLinkTransmit` -/
  delayCountdown : Nat
  /-- `missionProtocolState` -/
  missionProtocolState : MissionState
  /-- `currentMission` (`uint8_t`), the download serve index -/
  currentMission : Nat
  /-- `static uint8_t missionProtocolRequestCounter` in `MavLinkTransmit` -/
  missionProtocolRequestCounter : Nat
  /-- `static uint16_t mavlinkNewMissionListSize` in `MavLinkReceive` -/
  mavlinkNewMissionListSize : Nat
  /-- `systemStatus.status` (`uint16_t` bitfield; bit 0 = autonomous) -/
  systemStatusStatus : Nat
  /-- the external MissionManager's mission list `mList` (items) -/
  missions : List Mission
  /-- `mList.maxSize` -/
  missionMaxSize : Nat
  /-- the MissionManager's current mission index (`int8_t`, −1 = none) -/
  currentMissionIndex : Int
  /-- the external message scheduler -/
  sched : Sched
deriving DecidableEq, Repr

/-- Modelled from the spec: MissionManager `clear()` (`ClearMissionList`)
— empties the store; with no missions the current index reads −1. -/
def ClearMissionList (s : MavState) : MavState :=
  { s with missions := [], currentMissionIndex := -1 }

/-- Modelled from the spec: MissionManager `count()` (`GetMissionCount`,
returned through a `uint8_t` out-parameter). -/
def GetMissionCount (s : MavState) : Nat :=
  s.missions.length % 256

/-- Modelled from the spec: MissionManager `get(seq)` (`GetMission`);
found exactly when the index is within the store. -/
def GetMission (s : MavState) (i : Nat) : Option Mission :=
  s.missions.get? i

/-- Modelled from the spec: MissionManager `append(item) -> indexOrFull`
(`AppendMission`).  On success the status out-parameter is the new store
size (so the item matching the expected upload total yields a status equal
to that total, per §4.3); on a full store it is −1. -/
def AppendMission (s : MavState) (m : Mission) : MavState × Int :=
  if s.missions.length < s.missionMaxSize then
    ({ s with missions := s.missions ++ [m] }, Int.ofNat (s.missions.length + 1))
  else
    (s, -1)

/-- Modelled from the spec: MissionManager `setCurrent(seq)`
(`SetCurrentMission`, `uint8_t` argument); a sequence number beyond the
store is ignored. -/
def SetCurrentMission (s : MavState) (seq : Nat) : MavState :=
  if seq < s.missions.length then { s with currentMissionIndex := Int.ofNat seq }
  else s

/-- The mission-acknowledgment codes actually sent
(`MAV_MISSION_ACCEPTED`, `MAV_MISSION_ERROR`, `MAV_MISSION_NO_SPACE`,
`MAV_MISSION_INVALID_SEQUENCE`). -/
inductive AckType where
  | accepted
  | error
  | noSpace
  | invalidSequence
deriving DecidableEq, Repr

/-- Outbound frames enqueued on UART1, as observable events.  Periodic
telemetry packets carry no fields relevant to any claim and appear as
bare markers. -/
inductive MavOut where
  | heartbeatOut
  | sysStatusOut
  | gpsRawIntOut
  | statusAndErrorsOut
  | wso100Out
  /-- `mavlink_msg_param_value_pack` of parameter `index`, whose packed
  value is the boolean status bit `value`. -/
  | paramValueOut (index : Nat) (value : Bool)
  | missionAckOut (ack : AckType)
  | missionRequestOut (seq : Nat)
  | missionCountOut (count : Nat)
  | missionItemOut (seq : Nat) (isCurrent : Bool)
  | missionCurrentOut (seq : Nat)
deriving DecidableEq, Repr

/-- `_transmitParameter0`: packs `MODE_AUTO` = bit 0 of
`systemStatus.status`. -/
def transmitParameter0 (s : MavState) : MavOut :=
  .paramValueOut 0 (decide ((s.systemStatusStatus &&& 1) ≠ 0))

/-- `_transmitParameter1`: packs `MODE_HIL` = bit 1. -/
def transmitParameter1 (s : MavState) : MavOut :=
  .paramValueOut 1 (decide ((s.systemStatusStatus &&& 2) ≠ 0))

/-- `_transmitParameter2`: packs `MODE_HILSENSE` = bit 2. -/
def transmitParameter2 (s : MavState) : MavOut :=
  .paramValueOut 2 (decide ((s.systemStatusStatus &&& 4) ≠ 0))

/-- `_transmitParameter3`: packs `MODE_RCDISCON` = bit 3. -/
def transmitParameter3 (s : MavState) : MavOut :=
  .paramValueOut 3 (decide ((s.systemStatusStatus &&& 8) ≠ 0))

/-- `MavLinkMissionItemSend`: transmits mission number `currentMission`
if the store has it; the packed `current` flag compares `currentMission`
with the `uint8_t` cast of the `int8_t` current index. -/
def MavLinkMissionItemSend (s : MavState) : List MavOut :=
  match GetMission s s.currentMission with
  | some _ =>
      [.missionItemOut s.currentMission
        (decide (s.currentMission = (s.currentMissionIndex % 256).toNat))]
  | none => []

/-- `MavLinkSendCurrentMission`: transmits the current mission index
unless it is −1. -/
def MavLinkSendCurrentMission (s : MavState) : List MavOut :=
  if s.currentMissionIndex ≠ -1 then
    [.missionCurrentOut (s.currentMissionIndex % 65536).toNat]
  else []

/-- The per-message dispatch inside `MavLinkTransmit`'s send loop (the
`switch (j->id)` over the ids returned by `IncrementTimestep`). -/
def dispatchId (s : MavState) (id : MsgId) : MavState × List MavOut :=
  match id with
  | .heartbeat => (s, [.heartbeatOut])
  | .sysStatus => (s, [.sysStatusOut])
  | .gpsRawInt => (s, [.gpsRawIntOut])
  | .statusAndErrors => (s, [.statusAndErrorsOut])
  | .wso100 => (s, [.wso100Out])
  | .paramValue =>
      let outs : List MavOut :=
        match s.currentParameter with
        | 0 => [transmitParameter0 s]
        | 1 => [transmitParameter1 s]
        | 2 => [transmitParameter2 s]
        | 3 => [transmitParameter3 s]
        | _ => []
      let s' :=
        if s.parameterProtocolState = .streamTransmitWaiting then
          { s with currentParameter := (s.currentParameter + 1) % 256,
                   parameterProtocolState := .streamTransmitDelay }
        else if s.parameterProtocolState = .singletonTransmitWaiting then
          { s with parameterProtocolState := .inactive }
        else s
      (s', outs)
  | .missionCount =>
      ({ s with missionProtocolState := .requestListCountdown },
       [.missionCountOut (GetMissionCount s)])
  | .missionItem =>
      ({ s with currentMission := (s.currentMission + 1) % 256,
                missionProtocolRequestCounter := 0,
                missionProtocolState := .requestListCountdown },
       MavLinkMissionItemSend s)

/-- The parameter-protocol `switch` at the top of `MavLinkTransmit`.
Note `if (delayCountdown++ == 9)`: the old value is compared with 9 and
the counter always increments (then resets on the transition). -/
def paramSwitchStep (s : MavState) : MavState :=
  match s.parameterProtocolState with
  | .singletonTransmitStart =>
      { s with sched := AddTransientMessage s.sched .paramValue,
               parameterProtocolState := .singletonTransmitWaiting }
  | .streamTransmitStart =>
      { s with currentParameter := 0,
               parameterProtocolState := .streamTransmitParam }
  | .streamTransmitParam =>
      if s.currentParameter < parameterCount then
        { s with sched := AddTransientMessage s.sched .paramValue,
                 parameterProtocolState := .streamTransmitWaiting }
      else
        { s with parameterProtocolState := .inactive }
  | .streamTransmitDelay =>
      if s.delayCountdown = 9 then
        { s with delayCountdown := 0,
                 parameterProtocolState := .streamTransmitParam }
      else
        { s with delayCountdown := (s.delayCountdown + 1) % 256 }
  | _ => s

/-- The mission-protocol `switch` in `MavLinkTransmit`.  Note
`if (missionProtocolRequestCounter++ > 20)`: the old value is compared
with 20 and the counter always increments (then resets on timeout). -/
def missionSwitchStep (s : MavState) : MavState :=
  match s.missionProtocolState with
  | .requestListStart =>
      { s with sched := AddTransientMessage s.sched .missionCount,
               missionProtocolRequestCounter := 0,
               currentMission := 0,
               missionProtocolState := .requestListCountdown }
  | .requestListCountdown =>
      if s.missionProtocolRequestCounter > 20 then
        { s with missionProtocolRequestCounter := 0,
                 missionProtocolState := .inactive }
      else
        { s with missionProtocolRequestCounter :=
                   (s.missionProtocolRequestCounter + 1) % 256 }
  | .requestListResponse =>
      { s with sched := AddTransientMessage s.sched .missionItem,
               missionProtocolState := .requestListWaiting }
  | .requestListWaiting => s
  | .inactive => s

/-- Runs the dispatch loop over a list of due message ids, concatenating
the emitted frames. -/
def runIds (s : MavState) (ids : List MsgId) : MavState × List MavOut :=
  match ids with
  | [] => (s, [])
  | id :: rest =>
      let (s1, o1) := dispatchId s id
      let (s2, o2) := runIds s1 rest
      (s2, o1 ++ o2)

/-- `MavLinkTransmit`: one transmission timestep — the two protocol
switches, then `IncrementTimestep` and the dispatch loop over everything
due. -/
def MavLinkTransmit (s : MavState) : MavState × List MavOut :=
  let s1 := paramSwitchStep s
  let s2 := missionSwitchStep s1
  let (sched', due) := IncrementTimestep s2.sched
  runIds { s2 with sched := sched' } due

/-- Decoded inbound messages handled by `MavLinkReceive`'s dispatch
`switch`.  Raw integer fields keep their full decoded range; width
truncations are applied in the handler exactly as the C casts do.  A
`PARAM_SET` float value is carried as its 32-bit pattern
(`mavlink_param_union_t.param_uint32`), which is all the handler reads. -/
inductive InMsg where
  | missionCount (count : Nat)
  | missionItem (seq : Nat) (current : Bool) (frame : Nat) (command : Nat)
      (autocontinue : Nat)
  | missionRequestList
  | missionRequest (seq : Nat)
  | missionClearAll
  | missionSetCurrent (seq : Nat)
  | missionAck
  | paramRequestList
  | paramRequestRead (index : Nat)
  | paramSet (name : String) (valueBits : Nat)
deriving DecidableEq, Repr

/-- The handler body of `MavLinkReceive` for one decoded message (the
`switch (msg.msgid)`). -/
def MavLinkReceiveMsg (s : MavState) (msg : InMsg) : MavState × List MavOut :=
  match msg with
  | .missionCount count =>
      if 0 < s.systemStatusStatus &&& 1 then
        (s, [.missionAckOut .error])
      else
        let s1 := ClearMissionList s
        let s2 := { s1 with mavlinkNewMissionListSize := count % 65536 }
        if s2.mavlinkNewMissionListSize = 0 then
          (s2, [.missionAckOut .error])
        else if s2.mavlinkNewMissionListSize > s2.missionMaxSize then
          (s2, [.missionAckOut .noSpace])
        else
          (s2, [.missionRequestOut 0])
  | .missionItem seq current frame command autocontinue =>
      let seq16 := seq % 65536
      if GetMissionCount s = seq16 then
        let m : Mission := ⟨frame, command, autocontinue⟩
        let (s1, missionAddStatus) := AppendMission s m
        if missionAddStatus ≠ -1 then
          let s2 := if current then SetCurrentMission s1 (seq16 % 256) else s1
          if missionAddStatus = Int.ofNat s2.mavlinkNewMissionListSize then
            (s2, [.missionAckOut .accepted])
          else
            (s2, [.missionRequestOut ((seq16 + 1) % 65536)])
        else
          (s1, [.missionAckOut .noSpace])
      else
        (s, [.missionAckOut .invalidSequence])
  | .missionRequestList =>
      if s.missionProtocolState = .inactive then
        ({ s with missionProtocolState := .requestListStart }, [])
      else (s, [])
  | .missionRequest seq =>
      if s.currentMission = seq % 256 then
        ({ s with missionProtocolState := .requestListResponse }, [])
      else (s, [])
  | .missionClearAll =>
      (ClearMissionList s, [.missionAckOut .accepted])
  | .missionSetCurrent seq =>
      let s1 := SetCurrentMission s (seq % 256)
      (s1, MavLinkSendCurrentMission s1)
  | .missionAck => (s, [])
  | .paramRequestList =>
      if s.parameterProtocolState = .inactive then
        ({ s with parameterProtocolState := .streamTransmitStart }, [])
      else (s, [])
  | .paramRequestRead index =>
      if s.parameterProtocolState = .inactive then
        ({ s with currentParameter := index % 256,
                  parameterProtocolState := .singletonTransmitStart }, [])
      else (s, [])
  | .paramSet name valueBits =>
      if s.parameterProtocolState = .inactive then
        let step :=
          if name = "MODE_AUTO" then
            let s' :=
              if valueBits ≠ 0 then
                { s with systemStatusStatus := s.systemStatusStatus ||| 1 }
              else
                { s with systemStatusStatus := s.systemStatusStatus &&& (65535 ^^^ 1) }
            let s'' := { s' with currentParameter := 0 }
            (s'', [transmitParameter0 s''])
          else if name = "MODE_HIL" then
            let s' :=
              if valueBits ≠ 0 then
                { s with systemStatusStatus := s.systemStatusStatus ||| 2 }
              else
                { s with systemStatusStatus := s.systemStatusStatus &&& (65535 ^^^ 2) }
            let s'' := { s' with currentParameter := 1 }
            (s'', [transmitParameter1 s''])
          else if name = "MODE_HILSENSE" then
            let s' :=
              if valueBits ≠ 0 then
                { s with systemStatusStatus := s.systemStatusStatus ||| 4 }
              else
                { s with systemStatusStatus := s.systemStatusStatus &&& (65535 ^^^ 4) }
            let s'' := { s' with currentParameter := 2 }
            (s'', [transmitParameter2 s''])
          else if name = "MODE_RCDISCON" then
            let s' :=
              if valueBits ≠ 0 then
                { s with systemStatusStatus := s.systemStatusStatus ||| 8 }
              else
                { s with systemStatusStatus := s.systemStatusStatus &&& (65535 ^^^ 8) }
            let s'' := { s' with currentParameter := 3 }
            (s'', [transmitParameter3 s''])
          else (s, [])
        ({ step.1 with parameterProtocolState := .singletonTransmitStart }, step.2)
      else (s, [])

/-- Processes a list of decoded inbound messages in order (one drain of
the receive buffer), concatenating the replies. -/
def runReceive (s : MavState) (msgs : List InMsg) : MavState × List MavOut :=
  match msgs with
  | [] => (s, [])
  | m :: rest =>
      let (s1, o1) := MavLinkReceiveMsg s m
      let (s2, o2) := runReceive s1 rest
      (s2, o1 ++ o2)

/-- Runs `n` transmission timesteps, keeping each tick's emitted frames
as a separate list. -/
def runTransmit (s : MavState) : Nat → MavState × List (List MavOut)
  | 0 => (s, [])
  | n + 1 =>
      let (s1, o) := MavLinkTransmit s
      let (s2, os) := runTransmit s1 n
      (s2, o :: os)

/-- `MavLinkInit`: registers the five periodic telemetry messages. -/
def MavLinkInit (sch : Sched) : Sched :=
  AddMessage (AddMessage (AddMessage (AddMessage (AddMessage sch
    .heartbeat 1) .sysStatus 1) .gpsRawInt 1) .statusAndErrors 4) .wso100 2

/-- The module state at boot: both FSMs inactive, all counters zero, an
empty mission store (capacity modelled as 16 slots) and the
`MavLinkInit` scheduler table. -/
def initialMavState : MavState where
  parameterProtocolState := .inactive
  currentParameter := 0
  delayCountdown := 0
  missionProtocolState := .inactive
  currentMission := 0
  missionProtocolRequestCounter := 0
  mavlinkNewMissionListSize := 0
  systemStatusStatus := 0
  missions := []
  missionMaxSize := 16
  currentMissionIndex := -1
  sched := MavLinkInit ⟨[], []⟩

end MavNode

namespace PrimaryNode

/-! ## Embedding of `src/Code/Primary_node/PrimaryNode.c`

The fault aggregator in `main`'s outer loop (lines 262–471) and
`SetAutoMode`.  The `PRIMARY_NODE_*` bit constants and `RTB_RESET_MASK`
live in the repository's `PrimaryNode.h`, which is not under `src/`; they
are modelled below from the spec's fault-bit list as distinct single-bit
`uint16_t` masks, with `RTB_RESET_MASK` the subset of sticky
subsystem-degradation bits the spec calls RTB-qualifying.  None of the
theorems below depends on the particular bit positions, only on their
distinctness and on which bits belong to `RTB_RESET_MASK`.
-/

/-- Modelled from the spec (`PrimaryNode.h` missing): autonomous-mode bit
of `nodeStatus`. -/
def PRIMARY_NODE_STATUS_AUTOMODE : Nat := 1

/-- Modelled from the spec: ECAN transmit-error bit of `nodeStatus`. -/
def PRIMARY_NODE_STATUS_ECAN_TX_ERR : Nat := 2

/-- Modelled from the spec: ECAN receive-error bit of `nodeStatus`. -/
def PRIMARY_NODE_STATUS_ECAN_RX_ERR : Nat := 4

/-- Modelled from the spec: RC-node-disconnected bit of `nodeStatus`. -/
def PRIMARY_NODE_STATUS_RC_NODE_DISCONNECTED : Nat := 8

/-- Modelled from the spec: startup-hold bit of `nodeErrors`. -/
def PRIMARY_NODE_RESET_STARTUP : Nat := 1

/-- Modelled from the spec: GPS-invalid sticky bit of `nodeErrors` (the
source applies this `STATUS_`-named constant to `nodeErrors`). -/
def PRIMARY_NODE_STATUS_GPS_INVALID : Nat := 2

/-- Modelled from the spec: GPS disconnected-by-timeout bit. -/
def PRIMARY_NODE_RESET_GPS_DISCONNECTED : Nat := 4

/-- Modelled from the spec: IMU-disconnected bit. -/
def PRIMARY_NODE_RESET_IMU_DISCONNECTED : Nat := 8

/-- Modelled from the spec: rudder active-loss (error/calibration) bit. -/
def PRIMARY_NODE_RESET_RUDDER_ERRORS : Nat := 16

/-- Modelled from the spec: rudder-uncalibrated bit. -/
def PRIMARY_NODE_RESET_UNCALIBRATED : Nat := 32

/-- Modelled from the spec: rudder-node-disconnected bit. -/
def PRIMARY_NODE_RESET_RUDDER_DISCONNECTED : Nat := 64

/-- Modelled from the spec: water-speed-sensor-disconnected bit. -/
def PRIMARY_NODE_RESET_DST800_DISCONNECTED : Nat := 128

/-- Modelled from the spec: propulsion-disconnected/e-stop bit. -/
def PRIMARY_NODE_RESET_ESTOP_OR_ACS300_DISCON : Nat := 256

/-- Modelled from the spec: ground-station-disconnected bit. -/
def PRIMARY_NODE_RESET_GCS_DISCONNECTED : Nat := 512

/-- Modelled from the spec: manual-override bit. -/
def PRIMARY_NODE_RESET_MANUAL_OVERRIDE : Nat := 1024

/-- Modelled from the spec: the latched RTB-active bit. -/
def PRIMARY_NODE_RESET_RTB : Nat := 2048

/-- Modelled from the spec: rudder-calibrating bit. -/
def PRIMARY_NODE_RESET_CALIBRATING : Nat := 4096

/-- Modelled from the spec: `RTB_RESET_MASK` — the RTB-qualifying subset
of the sticky fault bits (subsystem degradations that must abort
autonomous operation). -/
def RTB_RESET_MASK : Nat :=
  PRIMARY_NODE_RESET_GPS_DISCONNECTED |||
  PRIMARY_NODE_RESET_IMU_DISCONNECTED |||
  PRIMARY_NODE_RESET_RUDDER_ERRORS |||
  PRIMARY_NODE_RESET_UNCALIBRATED |||
  PRIMARY_NODE_RESET_RUDDER_DISCONNECTED |||
  PRIMARY_NODE_RESET_DST800_DISCONNECTED |||
  PRIMARY_NODE_RESET_ESTOP_OR_ACS300_DISCON |||
  PRIMARY_NODE_RESET_GCS_DISCONNECTED

/-- `#define GPS_DISCONNECTION_TIME 1000` -/
def GPS_DISCONNECTION_TIME : Nat := 1000

/-- `#define GCS_DISCONNECTION_TIME 3000` -/
def GCS_DISCONNECTION_TIME : Nat := 3000

/-- The state the aggregator loop reads and writes: the two `uint16_t`
bitmasks, `main`'s `static uint16_t lastErrorState`, the
`lastSensorAvailability` snapshot fields the loop actually uses, and
`sayStatusCounter`.  Unused snapshot members (`imuActive`, `wso100*`,
`dst800Active`, `power*`, `gyro*`) are elided. -/
structure PState where
  nodeStatus : Nat
  nodeErrors : Nat
  lastErrorState : Nat
  lastGpsEnabled : Bool
  lastGpsActive : Bool
  lastImuEnabled : Bool
  lastDst800Enabled : Bool
  lastPropEnabled : Bool
  lastRudderEnabled : Bool
  lastRudderActive : Bool
  lastRcNodeEnabled : Bool
  lastRcNodeActive : Bool
  sayStatusCounter : Nat
deriving DecidableEq, Repr

/-- One tick's external readings: the `sensorAvailability` snapshot, ECAN
error flags, rudder calibration state, the GCS-message age, and the
system time (all as read by the loop body). -/
structure SensorInput where
  ecanTxError : Bool
  ecanTxBufferOverflow : Bool
  ecanRxError : Bool
  ecanRxBufferOverflow : Bool
  gpsEnabled : Bool
  gpsActive : Bool
  /-- `sensorAvailability.gps.last_active` (`uint32_t`) -/
  gpsLastActive : Nat
  /-- `nodeSystemTime` (`uint32_t`) -/
  nodeSystemTime : Nat
  propEnabled : Bool
  rudderEnabled : Bool
  rudderActive : Bool
  rcNodeEnabled : Bool
  rcNodeActive : Bool
  dst800Enabled : Bool
  imuEnabled : Bool
  rudderCalibrating : Bool
  rudderCalibrated : Bool
  /-- `MavLinkTimeSinceLastGcsMessage()` -/
  gcsTimeSinceLastMessage : Nat
deriving DecidableEq, Repr

/-- Observable effects of the loop body.  Actuator commands whose
magnitudes come from float state are kept as mux markers; the one call
with literal arguments, `ActuatorsTransmitCommands(0.0, 0, true)`, is the
`actuatorsCmd 0 0 true` event.  The RTB `MavLinkSendStatusText` carries
the `rtbErrors` value formatted into its text. -/
inductive POut where
  | actuatorsCmd (rudder : Int) (throttle : Int) (force : Bool)
  | muxAutoCmd (force : Bool)
  | muxManualCmd (force : Bool)
  | rtbNotification (rtbErrors : Nat)
  | exitRtbNotice
  | heartbeatGroundstation
  | heartbeatDatalogger
  | audioStatusUpdate
  | allParameters
deriving DecidableEq, Repr

/-- The `IS_AUTONOMOUS()` macro (consistent with `GetAutoMode` in the
source: tests `PRIMARY_NODE_STATUS_AUTOMODE` in `nodeStatus`). -/
def IS_AUTONOMOUS (s : PState) : Bool :=
  decide (0 < s.nodeStatus &&& PRIMARY_NODE_STATUS_AUTOMODE)

/-- `PrimaryNodeMode` (`PRIMARY_MODE_MANUAL` / `PRIMARY_MODE_AUTONOMOUS`). -/
inductive PrimaryNodeMode where
  | manual
  | autonomous
deriving DecidableEq, Repr

/-- The transmit decision of `PrimaryNodeMuxAndOutputControllerCommands`
(the float command values themselves are controller state and are elided
from the events). -/
def PrimaryNodeMuxOutputs (s : PState) (force : Bool) : List POut :=
  if IS_AUTONOMOUS s && decide (s.nodeErrors = 0) then
    [.muxAutoCmd force]
  else if !IS_AUTONOMOUS s &&
      decide (s.nodeErrors &&& PRIMARY_NODE_RESET_MANUAL_OVERRIDE = 0) then
    [.muxManualCmd force]
  else []

/-- Lines 265–283: ECAN error flags mirrored into `nodeStatus`. -/
def ecanErrorBlock (s : PState) (inp : SensorInput) : PState :=
  let s1 :=
    if s.nodeStatus &&& PRIMARY_NODE_STATUS_ECAN_TX_ERR ≠ 0 then
      if !inp.ecanTxError && !inp.ecanTxBufferOverflow then
        { s with nodeStatus := s.nodeStatus &&& (65535 ^^^ PRIMARY_NODE_STATUS_ECAN_TX_ERR) }
      else s
    else
      if inp.ecanTxError || inp.ecanTxBufferOverflow then
        { s with nodeStatus := s.nodeStatus ||| PRIMARY_NODE_STATUS_ECAN_TX_ERR }
      else s
  if s1.nodeStatus &&& PRIMARY_NODE_STATUS_ECAN_RX_ERR ≠ 0 then
    if !inp.ecanRxError && !inp.ecanRxBufferOverflow then
      { s1 with nodeStatus := s1.nodeStatus &&& (65535 ^^^ PRIMARY_NODE_STATUS_ECAN_RX_ERR) }
    else s1
  else
    if inp.ecanRxError || inp.ecanRxBufferOverflow then
      { s1 with nodeStatus := s1.nodeStatus ||| PRIMARY_NODE_STATUS_ECAN_RX_ERR }
    else s1

/-- Lines 286–290: track the GPS `enabled` edge (LED state only). -/
def gpsLedBlock (s : PState) (inp : SensorInput) : PState :=
  if s.lastGpsEnabled && !inp.gpsEnabled then
    { s with lastGpsEnabled := false }
  else if !s.lastGpsEnabled && inp.gpsEnabled then
    { s with lastGpsEnabled := true }
  else s

/-- Lines 293–299 (and verbatim again at 311–317): GPS `active` edges
drive the sticky `PRIMARY_NODE_STATUS_GPS_INVALID` bit — set on the
active→inactive edge, cleared unconditionally on inactive→active. -/
def gpsInvalidBlock (s : PState) (inp : SensorInput) : PState :=
  if s.lastGpsActive && !inp.gpsActive then
    { s with nodeErrors := s.nodeErrors ||| PRIMARY_NODE_STATUS_GPS_INVALID,
             lastGpsActive := false }
  else if !s.lastGpsActive && inp.gpsActive then
    { s with nodeErrors := s.nodeErrors &&& (65535 ^^^ PRIMARY_NODE_STATUS_GPS_INVALID),
             lastGpsActive := true }
  else s

/-- Lines 302–310: GPS disconnection timeout bit, set from elapsed time
since `last_active` (`uint32_t` wraparound subtraction) and cleared once
active again. -/
def gpsDisconnectBlock (s : PState) (inp : SensorInput) : PState :=
  if s.nodeErrors &&& PRIMARY_NODE_RESET_GPS_DISCONNECTED ≠ 0 then
    if inp.gpsActive then
      { s with nodeErrors := s.nodeErrors &&& (65535 ^^^ PRIMARY_NODE_RESET_GPS_DISCONNECTED) }
    else s
  else
    if (inp.nodeSystemTime + 4294967296 - inp.gpsLastActive) % 4294967296 ≥
        GPS_DISCONNECTION_TIME then
      { s with nodeErrors := s.nodeErrors ||| PRIMARY_NODE_RESET_GPS_DISCONNECTED }
    else s

/-- Lines 320–326: propulsion (ACS300) `enabled` edges drive the
e-stop-class bit. -/
def propBlock (s : PState) (inp : SensorInput) : PState :=
  if s.lastPropEnabled && !inp.propEnabled then
    { s with nodeErrors := s.nodeErrors ||| PRIMARY_NODE_RESET_ESTOP_OR_ACS300_DISCON,
             lastPropEnabled := false }
  else if !s.lastPropEnabled && inp.propEnabled then
    { s with nodeErrors := s.nodeErrors &&& (65535 ^^^ PRIMARY_NODE_RESET_ESTOP_OR_ACS300_DISCON),
             lastPropEnabled := true }
  else s

/-- Lines 331–337: rudder-node `enabled` edges drive the
rudder-disconnected bit. -/
def rudderEnabledBlock (s : PState) (inp : SensorInput) : PState :=
  if s.lastRudderEnabled && !inp.rudderEnabled then
    { s with nodeErrors := s.nodeErrors ||| PRIMARY_NODE_RESET_RUDDER_DISCONNECTED,
             lastRudderEnabled := false }
  else if !s.lastRudderEnabled && inp.rudderEnabled then
    { s with nodeErrors := s.nodeErrors &&& (65535 ^^^ PRIMARY_NODE_RESET_RUDDER_DISCONNECTED),
             lastRudderEnabled := true }
  else s

/-- Lines 343–349: RC-node `enabled` edges drive a (non-error)
`nodeStatus` flag. -/
def rcNodeEnabledBlock (s : PState) (inp : SensorInput) : PState :=
  if s.lastRcNodeEnabled && !inp.rcNodeEnabled then
    { s with nodeStatus := s.nodeStatus ||| PRIMARY_NODE_STATUS_RC_NODE_DISCONNECTED,
             lastRcNodeEnabled := false }
  else if !s.lastRcNodeEnabled && inp.rcNodeEnabled then
    { s with nodeStatus := s.nodeStatus &&& (65535 ^^^ PRIMARY_NODE_STATUS_RC_NODE_DISCONNECTED),
             lastRcNodeEnabled := true }
  else s

/-- Lines 354–360: DST800 `enabled` edges. -/
def dst800Block (s : PState) (inp : SensorInput) : PState :=
  if s.lastDst800Enabled && !inp.dst800Enabled then
    { s with nodeErrors := s.nodeErrors ||| PRIMARY_NODE_RESET_DST800_DISCONNECTED,
             lastDst800Enabled := false }
  else if !s.lastDst800Enabled && inp.dst800Enabled then
    { s with nodeErrors := s.nodeErrors &&& (65535 ^^^ PRIMARY_NODE_RESET_DST800_DISCONNECTED),
             lastDst800Enabled := true }
  else s

/-- Lines 364–370: IMU `enabled` edges. -/
def imuBlock (s : PState) (inp : SensorInput) : PState :=
  if s.lastImuEnabled && !inp.imuEnabled then
    { s with nodeErrors := s.nodeErrors ||| PRIMARY_NODE_RESET_IMU_DISCONNECTED,
             lastImuEnabled := false }
  else if !s.lastImuEnabled && inp.imuEnabled then
    { s with nodeErrors := s.nodeErrors &&& (65535 ^^^ PRIMARY_NODE_RESET_IMU_DISCONNECTED),
             lastImuEnabled := true }
  else s

/-- Lines 376–391: the RC node relinquishing control clears manual
override and re-broadcasts (`force = true`) the latest autonomous
commands; becoming active while enabled raises manual override. -/
def rcNodeActiveBlock (s : PState) (inp : SensorInput) : PState × List POut :=
  if s.lastRcNodeActive && !inp.rcNodeActive then
    let s1 := { s with nodeErrors := s.nodeErrors &&& (65535 ^^^ PRIMARY_NODE_RESET_MANUAL_OVERRIDE) }
    ({ s1 with lastRcNodeActive := false }, PrimaryNodeMuxOutputs s1 true)
  else if inp.rcNodeEnabled && !s.lastRcNodeActive && inp.rcNodeActive then
    ({ s with nodeErrors := s.nodeErrors ||| PRIMARY_NODE_RESET_MANUAL_OVERRIDE,
              lastRcNodeActive := true }, [])
  else (s, [])

/-- Lines 397–404: rudder `active` edges drive the sticky
`PRIMARY_NODE_RESET_RUDDER_ERRORS` bit; the clear on the
inactive→active edge additionally requires the rudder to be `enabled`. -/
def rudderActiveBlock (s : PState) (inp : SensorInput) : PState :=
  if s.lastRudderActive && !inp.rudderActive then
    { s with nodeErrors := s.nodeErrors ||| PRIMARY_NODE_RESET_RUDDER_ERRORS,
             lastRudderActive := false }
  else if inp.rudderEnabled && !s.lastRudderActive && inp.rudderActive then
    { s with nodeErrors := s.nodeErrors &&& (65535 ^^^ PRIMARY_NODE_RESET_RUDDER_ERRORS),
             lastRudderActive := true }
  else s

/-- Lines 407–415: rudder calibrating-state transitions. -/
def calibratingBlock (s : PState) (inp : SensorInput) : PState :=
  if s.nodeErrors &&& PRIMARY_NODE_RESET_CALIBRATING ≠ 0 then
    if !inp.rudderCalibrating then
      { s with nodeErrors := s.nodeErrors &&& (65535 ^^^ PRIMARY_NODE_RESET_CALIBRATING) }
    else s
  else
    if inp.rudderCalibrating then
      { s with nodeErrors := s.nodeErrors ||| PRIMARY_NODE_RESET_CALIBRATING }
    else s

/-- Lines 417–425: rudder calibrated-state transitions. -/
def uncalibratedBlock (s : PState) (inp : SensorInput) : PState :=
  if s.nodeErrors &&& PRIMARY_NODE_RESET_UNCALIBRATED ≠ 0 then
    if inp.rudderCalibrated then
      { s with nodeErrors := s.nodeErrors &&& (65535 ^^^ PRIMARY_NODE_RESET_UNCALIBRATED) }
    else s
  else
    if !inp.rudderCalibrated then
      { s with nodeErrors := s.nodeErrors ||| PRIMARY_NODE_RESET_UNCALIBRATED }
    else s

/-- Lines 428–436: ground-station disconnection timeout bit. -/
def gcsBlock (s : PState) (inp : SensorInput) : PState :=
  if s.nodeErrors &&& PRIMARY_NODE_RESET_GCS_DISCONNECTED ≠ 0 then
    if inp.gcsTimeSinceLastMessage < GCS_DISCONNECTION_TIME then
      { s with nodeErrors := s.nodeErrors &&& (65535 ^^^ PRIMARY_NODE_RESET_GCS_DISCONNECTED) }
    else s
  else
    if inp.gcsTimeSinceLastMessage ≥ GCS_DISCONNECTION_TIME then
      { s with nodeErrors := s.nodeErrors ||| PRIMARY_NODE_RESET_GCS_DISCONNECTED }
    else s

/-- The fault-aggregation part of one outer-loop iteration: blocks in
source order, lines 262–436 (the duplicated GPS-invalid block at
311–317 included).  The interleaved `MavLinkReceive()` call belongs to a
different module and is not part of this step. -/
def aggregate (s : PState) (inp : SensorInput) : PState × List POut :=
  let s1 := ecanErrorBlock s inp
  let s2 := gpsLedBlock s1 inp
  let s3 := gpsInvalidBlock s2 inp
  let s4 := gpsDisconnectBlock s3 inp
  let s5 := gpsInvalidBlock s4 inp
  let s6 := propBlock s5 inp
  let s7 := rudderEnabledBlock s6 inp
  let s8 := rcNodeEnabledBlock s7 inp
  let s9 := dst800Block s8 inp
  let s10 := imuBlock s9 inp
  let (s11, outs) := rcNodeActiveBlock s10 inp
  let s12 := rudderActiveBlock s11 inp
  let s13 := calibratingBlock s12 inp
  let s14 := uncalibratedBlock s13 inp
  let s15 := gcsBlock s14 inp
  (s15, outs)

/-- Lines 453–471: the return-to-base check.  On a changed error state,
while autonomous with a nonzero RTB-qualifying subset, the neutral
command `ActuatorsTransmitCommands(0.0, 0, true)` is forced out, and —
only if `PRIMARY_NODE_RESET_RTB` is not yet latched — the operator is
notified once and the latch set.  `lastErrorState` is updated to the
(possibly latched) new mask. -/
def rtbCheck (s : PState) : PState × List POut :=
  if s.nodeErrors ≠ s.lastErrorState then
    let rtbErrors := s.nodeErrors &&& RTB_RESET_MASK
    if IS_AUTONOMOUS s && decide (rtbErrors ≠ 0) then
      if s.nodeErrors &&& PRIMARY_NODE_RESET_RTB = 0 then
        let s1 := { s with nodeErrors := s.nodeErrors ||| PRIMARY_NODE_RESET_RTB }
        ({ s1 with lastErrorState := s1.nodeErrors },
         [.actuatorsCmd 0 0 true, .rtbNotification rtbErrors])
      else
        ({ s with lastErrorState := s.nodeErrors }, [.actuatorsCmd 0 0 true])
    else
      ({ s with lastErrorState := s.nodeErrors }, [])
  else (s, [])

/-- The state reaching line 453 (the input of the RTB check) on a tick
starting from `s` with readings `inp`. -/
def preRtbState (s : PState) (inp : SensorInput) : PState :=
  (aggregate s inp).1

/-- One full aggregator iteration: sensor-edge aggregation followed by
the RTB check. -/
def mainLoopBody (s : PState) (inp : SensorInput) : PState × List POut :=
  let (s1, o1) := aggregate s inp
  let (s2, o2) := rtbCheck s1
  (s2, o1 ++ o2)

/-- Runs the aggregator over a list of per-tick sensor readings,
concatenating the outputs. -/
def runMain (s : PState) : List SensorInput → PState × List POut
  | [] => (s, [])
  | inp :: rest =>
      let (s1, o1) := mainLoopBody s inp
      let (s2, o2) := runMain s1 rest
      (s2, o1 ++ o2)

/-- `SetAutoMode` (lines 850–882): entry into autonomous mode is gated on
not already being autonomous and `RTB_RESET_MASK` being clear; any call
while autonomous (whatever `newMode`) leaves autonomous mode and clears a
latched `PRIMARY_NODE_RESET_RTB`, notifying the operator. -/
def SetAutoMode (s : PState) (newMode : PrimaryNodeMode) : PState × List POut :=
  if newMode = .autonomous ∧ ¬(IS_AUTONOMOUS s = true) ∧
      s.nodeErrors &&& RTB_RESET_MASK = 0 then
    ({ s with nodeStatus := s.nodeStatus ||| PRIMARY_NODE_STATUS_AUTOMODE,
              sayStatusCounter := 0 },
     [.heartbeatGroundstation, .heartbeatDatalogger, .audioStatusUpdate,
      .allParameters])
  else if IS_AUTONOMOUS s = true then
    let s1 := { s with nodeStatus := s.nodeStatus &&& (65535 ^^^ PRIMARY_NODE_STATUS_AUTOMODE) }
    if s1.nodeErrors &&& PRIMARY_NODE_RESET_RTB ≠ 0 then
      ({ s1 with nodeErrors := s1.nodeErrors &&& (65535 ^^^ PRIMARY_NODE_RESET_RTB) },
       [.exitRtbNotice, .heartbeatGroundstation, .heartbeatDatalogger])
    else
      (s1, [.heartbeatGroundstation, .heartbeatDatalogger])
  else (s, [])

/-- Counts the RTB operator notifications in an output trace. -/
def notifCount (l : List POut) : Nat :=
  (l.filter fun o => match o with | .rtbNotification _ => true | _ => false).length

/-- The zero-initialized boot values of the node's globals and of
`main`'s statics. -/
def initialPState : PState where
  nodeStatus := 0
  nodeErrors := 0
  lastErrorState := 0
  lastGpsEnabled := false
  lastGpsActive := false
  lastImuEnabled := false
  lastDst800Enabled := false
  lastPropEnabled := false
  lastRudderEnabled := false
  lastRudderActive := false
  lastRcNodeEnabled := false
  lastRcNodeActive := false
  sayStatusCounter := 0

/-- A quiet sensor reading: all links down and no timeouts elapsed, the
rudder reporting calibrated.  Relative to `initialPState` it produces no
edges. -/
def quietInput : SensorInput where
  ecanTxError := false
  ecanTxBufferOverflow := false
  ecanRxError := false
  ecanRxBufferOverflow := false
  gpsEnabled := false
  gpsActive := false
  gpsLastActive := 0
  nodeSystemTime := 0
  propEnabled := false
  rudderEnabled := false
  rudderActive := false
  rcNodeEnabled := false
  rcNodeActive := false
  dst800Enabled := false
  imuEnabled := false
  rudderCalibrating := false
  rudderCalibrated := true
  gcsTimeSinceLastMessage := 0

end PrimaryNode

namespace MavNode

/-! ### Observation and small-step views used by the theorems -/

/-- Projects an output trace to its `PARAM_VALUE` sends
(index, packed status bit). -/
def paramOuts (l : List MavOut) : List (Nat × Bool) :=
  l.filterMap fun o => match o with
    | .paramValueOut i v => some (i, v)
    | _ => none

/-- Projects an output trace to its mission-protocol download sends
(count announcements and item transmissions). -/
def missionOuts (l : List MavOut) : List MavOut :=
  l.filter fun o => match o with
    | .missionCountOut _ => true
    | .missionItemOut _ _ => true
    | _ => false

/-- The parameter-protocol-relevant components of `MavState`. -/
structure ParamSub where
  pstate : ParamState
  cur : Nat
  delay : Nat
deriving DecidableEq, Repr

/-- Reads the parameter-protocol components out of a `MavState`. -/
def paramView (s : MavState) : ParamSub :=
  ⟨s.parameterProtocolState, s.currentParameter, s.delayCountdown⟩

/-- The `PARAM_VALUE` frame content produced by the
`switch (currentParameter)` in `MavLinkTransmit`'s dispatch. -/
def pvOut (cur status : Nat) : List (Nat × Bool) :=
  match cur with
  | 0 => [(0, decide ((status &&& 1) ≠ 0))]
  | 1 => [(1, decide ((status &&& 2) ≠ 0))]
  | 2 => [(2, decide ((status &&& 4) ≠ 0))]
  | 3 => [(3, decide ((status &&& 8) ≠ 0))]
  | _ => []

/-- The combined effect of one `MavLinkTransmit` tick on the
parameter-protocol components, assuming no `PARAM_VALUE` message is
already pending in the scheduler: the parameter `switch` followed — when
that switch queued a `PARAM_VALUE` transient — by the same-tick dispatch
of that transient.  `transmit_paramView` below proves this is exactly
what `MavLinkTransmit` does. -/
def paramStep (p : ParamSub) (status : Nat) : ParamSub × List (Nat × Bool) :=
  match p.pstate with
  | .singletonTransmitStart => (⟨.inactive, p.cur, p.delay⟩, pvOut p.cur status)
  | .streamTransmitStart => (⟨.streamTransmitParam, 0, p.delay⟩, [])
  | .streamTransmitParam =>
      if p.cur < parameterCount then
        (⟨.streamTransmitDelay, (p.cur + 1) % 256, p.delay⟩, pvOut p.cur status)
      else (⟨.inactive, p.cur, p.delay⟩, [])
  | .streamTransmitDelay =>
      if p.delay = 9 then (⟨.streamTransmitParam, p.cur, 0⟩, [])
      else (⟨.streamTransmitDelay, p.cur, (p.delay + 1) % 256⟩, [])
  | .singletonTransmitWaiting => (p, [])
  | .streamTransmitWaiting => (p, [])
  | .inactive => (p, [])

/-- The effect of dispatching one due `PARAM_VALUE` message on the
parameter-protocol components (the state-advance tail of the
`MAVLINK_MSG_ID_PARAM_VALUE` case in `MavLinkTransmit`'s send loop). -/
def pvDispatchView (p : ParamSub) : ParamSub :=
  if p.pstate = .streamTransmitWaiting then
    ⟨.streamTransmitDelay, (p.cur + 1) % 256, p.delay⟩
  else if p.pstate = .singletonTransmitWaiting then
    ⟨.inactive, p.cur, p.delay⟩
  else p

/-- Iterates `paramStep`, keeping each tick's sends separately. -/
def runParamSteps (p : ParamSub) (status : Nat) :
    Nat → ParamSub × List (List (Nat × Bool))
  | 0 => (p, [])
  | n + 1 =>
      let (p1, o) := paramStep p status
      let (p2, os) := runParamSteps p1 status n
      (p2, o :: os)

/-- The mission-protocol-relevant components of `MavState`. -/
structure MissionSub where
  mstate : MissionState
  cur : Nat
  counter : Nat
deriving DecidableEq, Repr

/-- Reads the mission-protocol components out of a `MavState`. -/
def missionView (s : MavState) : MissionSub :=
  ⟨s.missionProtocolState, s.currentMission, s.missionProtocolRequestCounter⟩

/-- The combined effect of one `MavLinkTransmit` tick on the
mission-protocol components, assuming no `MISSION_COUNT`/`MISSION_ITEM`
message is already pending in the scheduler (`transmit_missionView`
below proves the correspondence). -/
def missionStep (m : MissionSub) (store : List Mission) (curIdx : Int) :
    MissionSub × List MavOut :=
  match m.mstate with
  | .requestListStart =>
      (⟨.requestListCountdown, 0, 0⟩, [.missionCountOut (store.length % 256)])
  | .requestListCountdown =>
      if m.counter > 20 then (⟨.inactive, m.cur, 0⟩, [])
      else (⟨.requestListCountdown, m.cur, (m.counter + 1) % 256⟩, [])
  | .requestListResponse =>
      (⟨.requestListCountdown, (m.cur + 1) % 256, 0⟩,
       match store.get? m.cur with
       | some _ => [.missionItemOut m.cur (decide (m.cur = (curIdx % 256).toNat))]
       | none => [])
  | .requestListWaiting => (m, [])
  | .inactive => (m, [])

/-- Iterates `missionStep`, keeping each tick's sends separately. -/
def runMissionSteps (m : MissionSub) (store : List Mission) (curIdx : Int) :
    Nat → MissionSub × List (List MavOut)
  | 0 => (m, [])
  | n + 1 =>
      let (m1, o) := missionStep m store curIdx
      let (m2, os) := runMissionSteps m1 store curIdx n
      (m2, o :: os)

/-- No `PARAM_VALUE` message is pending in the scheduler (holds at boot
and whenever the parameter FSM has consumed its own transient). -/
def NPV (s : MavState) : Prop :=
  (∀ e ∈ s.sched.periodic, e.id ≠ MsgId.paramValue) ∧
  MsgId.paramValue ∉ s.sched.transients

/-- No `MISSION_COUNT` or `MISSION_ITEM` message is pending in the
scheduler. -/
def NMV (s : MavState) : Prop :=
  (∀ e ∈ s.sched.periodic, e.id ≠ MsgId.missionCount ∧ e.id ≠ MsgId.missionItem) ∧
  (∀ id ∈ s.sched.transients, id ≠ MsgId.missionCount ∧ id ≠ MsgId.missionItem)

instance (s : MavState) : Decidable (NPV s) := by unfold NPV; infer_instance

instance (s : MavState) : Decidable (NMV s) := by unfold NMV; infer_instance

/-- Ten consecutive send-free ticks (the fixed stream delay). -/
def c6Gap : List (List (Nat × Bool)) :=
  [[], [], [], [], [], [], [], [], [], []]

/-- The per-tick `PARAM_VALUE` send schedule of a parameter stream
launched from Inactive, over 46 ticks: parameter `i` goes out on tick
`1 + 11·i` (zero-indexed ticks 1, 12, 23, 34), so exactly ten send-free
ticks separate consecutive parameter transmissions, and nothing is sent
after tick 34. -/
def c6Schedule (status : Nat) : List (List (Nat × Bool)) :=
  [[], pvOut 0 status] ++ c6Gap ++ [pvOut 1 status] ++ c6Gap ++
    [pvOut 2 status] ++ c6Gap ++ [pvOut 3 status] ++ c6Gap ++ [[]]

/-- The message sequence of a complete in-order mission upload of `C`
items whose payloads are given by `fr`/`cmd`/`au` and whose last item is
flagged current. -/
def uploadItemMsgs (C : Nat) (fr cmd au : Nat → Nat) : List InMsg :=
  (List.range C).map fun k => .missionItem k (decide (k = C - 1)) (fr k) (cmd k) (au k)

/-- The fixed parameter registry of the `PARAM_SET` handler: maps a
parameter name to its index, if registered. -/
def paramRegistryIndex (name : String) : Option Nat :=
  if name = "MODE_AUTO" then some 0
  else if name = "MODE_HIL" then some 1
  else if name = "MODE_HILSENSE" then some 2
  else if name = "MODE_RCDISCON" then some 3
  else none

end MavNode

/-! ## Bitmask helper lemmas

The C code manipulates `uint16_t` bitmasks with `|=`, `&= ~BIT` and
`& MASK`.  These lemmas let us track a single bit through such updates.
-/

/-- Setting bits disjoint from `b` does not change the `b`-masked view. -/
theorem land_lor_of_disjoint (x a b : Nat) (h : a &&& b = 0) :
    (x ||| a) &&& b = x &&& b := by
  apply Nat.eq_of_testBit_eq
  intro i
  have h' : (a &&& b).testBit i = false := by rw [h]; simp
  simp only [Nat.testBit_land, Nat.testBit_lor] at *
  cases ha : a.testBit i <;> cases hb : b.testBit i <;>
    simp [ha, hb] at h' ⊢

/-- Masking with a superset `c` of `b` does not change the `b`-masked view. -/
theorem land_land_of_supset (x c b : Nat) (h : c &&& b = b) :
    (x &&& c) &&& b = x &&& b := by
  apply Nat.eq_of_testBit_eq
  intro i
  have h' : (c &&& b).testBit i = b.testBit i := by rw [h]
  simp only [Nat.testBit_land] at *
  cases hc : c.testBit i <;> cases hb : b.testBit i <;>
    simp [hc, hb] at h' ⊢

/-- Masking with a set `c` disjoint from `b` zeroes the `b`-masked view. -/
theorem land_land_of_disjoint (x c b : Nat) (h : c &&& b = 0) :
    (x &&& c) &&& b = 0 := by
  apply Nat.eq_of_testBit_eq
  intro i
  have h' : (c &&& b).testBit i = false := by rw [h]; simp
  simp only [Nat.testBit_land] at *
  cases hc : c.testBit i <;> cases hb : b.testBit i <;>
    simp [hc, hb] at h' ⊢

/-- Setting the bit `b` makes the `b`-masked view equal to `b`. -/
theorem land_lor_self (x b : Nat) : (x ||| b) &&& b = b := by
  apply Nat.eq_of_testBit_eq
  intro i
  simp only [Nat.testBit_land, Nat.testBit_lor]
  cases hb : b.testBit i <;> simp [hb]

/-- `&&&` distributes over `|||` on the left argument. -/
theorem land_lor_distrib (x a b : Nat) :
    (x ||| a) &&& b = (x &&& b) ||| (a &&& b) := by
  apply Nat.eq_of_testBit_eq
  intro i
  simp only [Nat.testBit_land, Nat.testBit_lor]
  cases x.testBit i <;> cases a.testBit i <;> cases b.testBit i <;> simp

namespace MavNode

/-! ### Claims about the receive dispatcher -/

/-- C3: a mission count announcement received while autonomous
(status bit 0 set) is answered with a `MAV_MISSION_ERROR` acknowledgment
and leaves the whole module state — in particular the mission store —
untouched, whatever the count; only when not autonomous is the store
cleared and the expected total recorded. -/
theorem claim_C3 (s : MavState) (count : Nat) :
    (0 < s.systemStatusStatus &&& 1 →
      MavLinkReceiveMsg s (.missionCount count) = (s, [.missionAckOut .error])) ∧
    (s.systemStatusStatus &&& 1 = 0 →
      (MavLinkReceiveMsg s (.missionCount count)).1.missions = [] ∧
      (MavLinkReceiveMsg s (.missionCount count)).1.mavlinkNewMissionListSize =
        count % 65536) := by
  constructor
  · intro h
    simp only [MavLinkReceiveMsg]
    rw [if_pos h]
  · intro h
    have h' : ¬ 0 < s.systemStatusStatus &&& 1 := by omega
    simp only [MavLinkReceiveMsg]
    rw [if_neg h']
    split_ifs <;> simp [ClearMissionList]

/-- Witness for C3 at a concrete autonomous state. -/
theorem claim_C3_witness :
    0 < ({ initialMavState with systemStatusStatus := 1 } : MavState).systemStatusStatus &&& 1 ∧
    MavLinkReceiveMsg { initialMavState with systemStatusStatus := 1 }
        (.missionCount 3) =
      ({ initialMavState with systemStatusStatus := 1 }, [.missionAckOut .error]) :=
  ⟨by decide, (claim_C3 { initialMavState with systemStatusStatus := 1 } 3).1 (by decide)⟩

/-- C4: a received mission item whose sequence number (16-bit) differs
from the store's current size draws a `MAV_MISSION_INVALID_SEQUENCE`
acknowledgment with the state unchanged; an in-sequence item hitting a
full store draws `MAV_MISSION_NO_SPACE`, also with the state unchanged. -/
theorem claim_C4 (s : MavState) (seq : Nat) (current : Bool)
    (frame command autocontinue : Nat) :
    (GetMissionCount s ≠ seq % 65536 →
      MavLinkReceiveMsg s (.missionItem seq current frame command autocontinue) =
        (s, [.missionAckOut .invalidSequence])) ∧
    (GetMissionCount s = seq % 65536 → s.missionMaxSize ≤ s.missions.length →
      MavLinkReceiveMsg s (.missionItem seq current frame command autocontinue) =
        (s, [.missionAckOut .noSpace])) := by
  constructor
  · intro h
    simp only [MavLinkReceiveMsg]
    rw [if_neg h]
  · intro h hfull
    have h' : ¬ s.missions.length < s.missionMaxSize := by omega
    simp only [MavLinkReceiveMsg, AppendMission]
    rw [if_pos h, if_neg h']
    simp

/-- Witness for C4: sending `seq = 2` to an empty store (size 0) is
rejected as an invalid sequence with no mutation. -/
theorem claim_C4_witness :
    GetMissionCount initialMavState ≠ 2 % 65536 ∧
    MavLinkReceiveMsg initialMavState (.missionItem 2 false 0 16 1) =
      (initialMavState, [.missionAckOut .invalidSequence]) :=
  ⟨by decide, (claim_C4 initialMavState 2 false 0 16 1).1 (by decide)⟩

/-- Counterexample to C7 as stated: a `PARAM_SET` whose name matches no
registry entry is *not* free of state changes — the handler still moves
the parameter FSM into `PARAM_STATE_SINGLETON_TRANSMIT_START` (line 758
runs unconditionally inside the Inactive guard), so a transmission of the
previously selected parameter is subsequently requested. -/
theorem claim_C7_counterexample :
    (MavLinkReceiveMsg initialMavState (.paramSet "MODE_NONE" 1)).1 ≠
      initialMavState := by decide

/-- C7 (amended): from an Inactive parameter FSM, a `PARAM_SET` whose
name matches the fixed registry updates the backing status bit,
immediately transmits the new value once, and moves the FSM into
SingleStart (scheduling one further transmission of that parameter as
acknowledgment); a `PARAM_SET` with an unregistered name performs no
store update and no immediate transmission but still moves the FSM into
SingleStart; while the FSM is not Inactive the request is ignored
entirely. -/
theorem claim_C7 (s : MavState) (name : String) (v : Nat)
    (h : s.parameterProtocolState = .inactive) :
    (∀ i, paramRegistryIndex name = some i →
      (MavLinkReceiveMsg s (.paramSet name v)).1 =
        { s with
            systemStatusStatus :=
              if v ≠ 0 then s.systemStatusStatus ||| (1 <<< i)
              else s.systemStatusStatus &&& (65535 ^^^ (1 <<< i)),
            currentParameter := i,
            parameterProtocolState := .singletonTransmitStart } ∧
      (MavLinkReceiveMsg s (.paramSet name v)).2 =
        [.paramValueOut i (decide (v ≠ 0))]) ∧
    (paramRegistryIndex name = none →
      MavLinkReceiveMsg s (.paramSet name v) =
        ({ s with parameterProtocolState := .singletonTransmitStart }, [])) ∧
    (∀ s' : MavState, s'.parameterProtocolState ≠ .inactive →
      MavLinkReceiveMsg s' (.paramSet name v) = (s', [])) := by
  refine ⟨?_, ?_, ?_⟩
  · intro i hi
    unfold paramRegistryIndex at hi
    by_cases h1 : name = "MODE_AUTO"
    · rw [if_pos h1] at hi
      cases hi
      by_cases hv : v ≠ 0 <;>
        simp [MavLinkReceiveMsg, h, h1, hv, transmitParameter0,
          land_lor_self, land_land_of_disjoint _ 65534 1 (by decide)]
    · rw [if_neg h1] at hi
      by_cases h2 : name = "MODE_HIL"
      · rw [if_pos h2] at hi
        cases hi
        by_cases hv : v ≠ 0 <;>
          simp [MavLinkReceiveMsg, h, h1, h2, hv, transmitParameter1,
            land_lor_self, land_land_of_disjoint _ 65533 2 (by decide)]
      · rw [if_neg h2] at hi
        by_cases h3 : name = "MODE_HILSENSE"
        · rw [if_pos h3] at hi
          cases hi
          by_cases hv : v ≠ 0 <;>
            simp [MavLinkReceiveMsg, h, h1, h2, h3, hv, transmitParameter2,
              land_lor_self, land_land_of_disjoint _ 65531 4 (by decide)]
        · rw [if_neg h3] at hi
          by_cases h4 : name = "MODE_RCDISCON"
          · rw [if_pos h4] at hi
            cases hi
            by_cases hv : v ≠ 0 <;>
              simp [MavLinkReceiveMsg, h, h1, h2, h3, h4, hv, transmitParameter3,
                land_lor_self, land_land_of_disjoint _ 65527 8 (by decide)]
          · rw [if_neg h4] at hi
            cases hi
  · intro hn
    unfold paramRegistryIndex at hn
    by_cases h1 : name = "MODE_AUTO"
    · rw [if_pos h1] at hn; cases hn
    · rw [if_neg h1] at hn
      by_cases h2 : name = "MODE_HIL"
      · rw [if_pos h2] at hn; cases hn
      · rw [if_neg h2] at hn
        by_cases h3 : name = "MODE_HILSENSE"
        · rw [if_pos h3] at hn; cases hn
        · rw [if_neg h3] at hn
          by_cases h4 : name = "MODE_RCDISCON"
          · rw [if_pos h4] at hn; cases hn
          · rw [if_neg h4] at hn
            simp [MavLinkReceiveMsg, h, h1, h2, h3, h4]
  · intro s' hs'
    simp [MavLinkReceiveMsg, hs']

/-- Witness for C7 at a concrete matched set request. -/
theorem claim_C7_witness :
    initialMavState.parameterProtocolState = ParamState.inactive ∧
    paramRegistryIndex "MODE_HIL" = some 1 ∧
    (MavLinkReceiveMsg initialMavState (.paramSet "MODE_HIL" 1)).2 =
      [.paramValueOut 1 (decide ((1 : Nat) ≠ 0))] :=
  ⟨by decide, by decide,
    ((claim_C7 initialMavState "MODE_HIL" 1 (by decide)).1 1 (by decide)).2⟩

/-! ### Scheduler and dispatch-loop lemmas -/

/-- `paramOuts` distributes over concatenation. -/
theorem paramOuts_append (l1 l2 : List MavOut) :
    paramOuts (l1 ++ l2) = paramOuts l1 ++ paramOuts l2 := by
  simp [paramOuts]

/-- `missionOuts` distributes over concatenation. -/
theorem missionOuts_append (l1 l2 : List MavOut) :
    missionOuts (l1 ++ l2) = missionOuts l1 ++ missionOuts l2 := by
  simp [missionOuts]

/-- A property of every registered id survives one periodic-table tick,
both in the updated table and in the emitted due list. -/
theorem tickPeriodic_prop (P : MsgId → Prop) (l : List SchedEntry)
    (h : ∀ e ∈ l, P e.id) :
    (∀ e ∈ (tickPeriodic l).1, P e.id) ∧ ∀ id ∈ (tickPeriodic l).2, P id := by
  induction l with
  | nil => simp [tickPeriodic]
  | cons e rest ih =>
      obtain ⟨h1, h2⟩ := ih (fun e' he' => h e' (List.mem_cons_of_mem _ he'))
      have he : P e.id := h e (List.mem_cons_self _ _)
      rcases hrec : tickPeriodic rest with ⟨rest', ids⟩
      rw [hrec] at h1 h2
      simp only [tickPeriodic, hrec]
      split_ifs
      · refine ⟨?_, ?_⟩
        · intro e' he'
          rcases List.mem_cons.1 he' with h' | h'
          · subst h'; exact he
          · exact h1 e' h'
        · intro id hid
          rcases List.mem_cons.1 hid with h' | h'
          · subst h'; exact he
          · exact h2 id h'
      · refine ⟨?_, h2⟩
        intro e' he'
        rcases List.mem_cons.1 he' with h' | h'
        · subst h'; exact he
        · exact h1 e' h'

/-- The dispatch loop body never touches the mission store, the current
mission index, the expected upload size, the status word, or the
scheduler. -/
theorem dispatchId_const1 (s : MavState) (id : MsgId) :
    (dispatchId s id).1.missions = s.missions ∧
    (dispatchId s id).1.missionMaxSize = s.missionMaxSize ∧
    (dispatchId s id).1.currentMissionIndex = s.currentMissionIndex ∧
    (dispatchId s id).1.mavlinkNewMissionListSize = s.mavlinkNewMissionListSize ∧
    (dispatchId s id).1.systemStatusStatus = s.systemStatusStatus ∧
    (dispatchId s id).1.sched = s.sched := by
  cases id <;> simp only [dispatchId] <;> (try split_ifs) <;> simp

/-- Dispatching any id other than `PARAM_VALUE` leaves the parameter FSM
untouched and emits no parameter frame. -/
theorem dispatchId_param_other (s : MavState) (id : MsgId)
    (h : id ≠ MsgId.paramValue) :
    paramView (dispatchId s id).1 = paramView s ∧
    paramOuts (dispatchId s id).2 = [] := by
  cases id
  case paramValue => exact absurd rfl h
  case missionItem =>
      refine ⟨rfl, ?_⟩
      simp only [dispatchId]
      rcases hG : GetMission s s.currentMission with _ | m <;>
        simp [MavLinkMissionItemSend, hG, paramOuts]
  all_goals exact ⟨rfl, by simp [dispatchId, paramOuts]⟩

/-- Dispatching a due `PARAM_VALUE` performs exactly the
`pvDispatchView` state advance and emits the `pvOut` frame. -/
theorem dispatchId_pv (s : MavState) :
    paramView (dispatchId s .paramValue).1 = pvDispatchView (paramView s) ∧
    paramOuts (dispatchId s .paramValue).2 =
      pvOut s.currentParameter s.systemStatusStatus := by
  constructor
  · simp only [dispatchId, pvDispatchView, paramView]
    split_ifs <;> simp_all
  · rcases hc : s.currentParameter with _ | (_ | (_ | (_ | n))) <;>
      simp only [dispatchId, hc] <;>
      simp [pvOut, paramOuts, transmitParameter0, transmitParameter1,
        transmitParameter2, transmitParameter3]

/-- Dispatching any id other than `MISSION_COUNT`/`MISSION_ITEM` leaves
the mission FSM untouched and emits no mission download frame. -/
theorem dispatchId_mission_other (s : MavState) (id : MsgId)
    (h : id ≠ MsgId.missionCount ∧ id ≠ MsgId.missionItem) :
    missionView (dispatchId s id).1 = missionView s ∧
    missionOuts (dispatchId s id).2 = [] := by
  cases id
  case missionCount => exact absurd rfl h.1
  case missionItem => exact absurd rfl h.2
  case paramValue =>
      constructor
      · simp only [dispatchId, missionView]
        split_ifs <;> simp
      · rcases hc : s.currentParameter with _ | (_ | (_ | (_ | n))) <;>
          simp only [dispatchId, hc] <;>
          simp [missionOuts, transmitParameter0, transmitParameter1,
            transmitParameter2, transmitParameter3]
  all_goals exact ⟨rfl, by simp [dispatchId, missionOuts]⟩

/-- Dispatching a due `MISSION_COUNT`: announce the store size and move
to the countdown state. -/
theorem dispatchId_mc (s : MavState) :
    missionView (dispatchId s .missionCount).1 =
      ⟨.requestListCountdown, s.currentMission, s.missionProtocolRequestCounter⟩ ∧
    missionOuts (dispatchId s .missionCount).2 =
      [.missionCountOut (GetMissionCount s)] := by
  exact ⟨rfl, by simp [dispatchId, missionOuts]⟩

/-- Dispatching a due `MISSION_ITEM`: send the served item if it exists,
advance the serve index, reset the countdown. -/
theorem dispatchId_mi (s : MavState) :
    missionView (dispatchId s .missionItem).1 =
      ⟨.requestListCountdown, (s.currentMission + 1) % 256, 0⟩ ∧
    missionOuts (dispatchId s .missionItem).2 = MavLinkMissionItemSend s := by
  refine ⟨rfl, ?_⟩
  simp only [dispatchId]
  rcases hG : GetMission s s.currentMission with _ | m <;>
    simp [MavLinkMissionItemSend, hG, missionOuts]

/-- The dispatch loop splits over list concatenation. -/
theorem runIds_append (s : MavState) (l1 l2 : List MsgId) :
    runIds s (l1 ++ l2) =
      ((runIds (runIds s l1).1 l2).1,
       (runIds s l1).2 ++ (runIds (runIds s l1).1 l2).2) := by
  induction l1 generalizing s with
  | nil => simp [runIds]
  | cons id rest ih =>
      rcases hd : dispatchId s id with ⟨s1, o1⟩
      simp [runIds, hd, ih s1, List.append_assoc]

/-- The dispatch loop preserves store, indices, status word and
scheduler. -/
theorem runIds_const (s : MavState) (ids : List MsgId) :
    (runIds s ids).1.missions = s.missions ∧
    (runIds s ids).1.missionMaxSize = s.missionMaxSize ∧
    (runIds s ids).1.currentMissionIndex = s.currentMissionIndex ∧
    (runIds s ids).1.mavlinkNewMissionListSize = s.mavlinkNewMissionListSize ∧
    (runIds s ids).1.systemStatusStatus = s.systemStatusStatus ∧
    (runIds s ids).1.sched = s.sched := by
  induction ids generalizing s with
  | nil => simp [runIds]
  | cons id rest ih =>
      obtain ⟨hc1, hc2, hc3, hc4, hc5, hc6⟩ := dispatchId_const1 s id
      rcases hd : dispatchId s id with ⟨s1, o1⟩
      rw [hd] at hc1 hc2 hc3 hc4 hc5 hc6
      dsimp only at hc1 hc2 hc3 hc4 hc5 hc6
      obtain ⟨ih1, ih2, ih3, ih4, ih5, ih6⟩ := ih s1
      simp [runIds, hd, ih1, ih2, ih3, ih4, ih5, ih6, hc1, hc2, hc3, hc4, hc5, hc6]

/-- A dispatch loop containing no `PARAM_VALUE` leaves the parameter FSM
untouched and emits no parameter frames. -/
theorem runIds_no_pv (s : MavState) (ids : List MsgId)
    (h : MsgId.paramValue ∉ ids) :
    paramView (runIds s ids).1 = paramView s ∧
    paramOuts (runIds s ids).2 = [] := by
  induction ids generalizing s with
  | nil => simp [runIds, paramOuts]
  | cons id rest ih =>
      have hid : id ≠ MsgId.paramValue := fun hh => h (hh ▸ List.mem_cons_self _ _)
      have hrest : MsgId.paramValue ∉ rest := fun hh => h (List.mem_cons_of_mem _ hh)
      obtain ⟨hv, ho⟩ := dispatchId_param_other s id hid
      rcases hd : dispatchId s id with ⟨s1, o1⟩
      rw [hd] at hv ho
      dsimp only at hv ho
      obtain ⟨ih1, ih2⟩ := ih s1 hrest
      simp [runIds, hd, paramOuts_append, ih1, ih2, hv, ho]

/-- A dispatch loop containing no `MISSION_COUNT`/`MISSION_ITEM` leaves
the mission FSM untouched and emits no mission download frames. -/
theorem runIds_no_mission (s : MavState) (ids : List MsgId)
    (h : ∀ id ∈ ids, id ≠ MsgId.missionCount ∧ id ≠ MsgId.missionItem) :
    missionView (runIds s ids).1 = missionView s ∧
    missionOuts (runIds s ids).2 = [] := by
  induction ids generalizing s with
  | nil => simp [runIds, missionOuts]
  | cons id rest ih =>
      have hid := h id (List.mem_cons_self _ _)
      have hrest : ∀ i ∈ rest, i ≠ MsgId.missionCount ∧ i ≠ MsgId.missionItem :=
        fun i hi => h i (List.mem_cons_of_mem _ hi)
      obtain ⟨hv, ho⟩ := dispatchId_mission_other s id hid
      rcases hd : dispatchId s id with ⟨s1, o1⟩
      rw [hd] at hv ho
      dsimp only at hv ho
      obtain ⟨ih1, ih2⟩ := ih s1 hrest
      simp [runIds, hd, missionOuts_append, ih1, ih2, hv, ho]

/-- The parameter `switch` preserves the mission FSM, the status word,
the stores and the periodic table. -/
theorem paramSwitchStep_const (s : MavState) :
    missionView (paramSwitchStep s) = missionView s ∧
    (paramSwitchStep s).systemStatusStatus = s.systemStatusStatus ∧
    (paramSwitchStep s).sched.periodic = s.sched.periodic ∧
    (paramSwitchStep s).missions = s.missions ∧
    (paramSwitchStep s).missionMaxSize = s.missionMaxSize ∧
    (paramSwitchStep s).currentMissionIndex = s.currentMissionIndex ∧
    (paramSwitchStep s).mavlinkNewMissionListSize = s.mavlinkNewMissionListSize := by
  cases h : s.parameterProtocolState <;>
    simp only [paramSwitchStep, h] <;>
    (try split_ifs) <;>
    simp [AddTransientMessage, missionView]

/-- The parameter `switch` either leaves the transient queue alone or
appends exactly one `PARAM_VALUE`. -/
theorem paramSwitchStep_transients (s : MavState) :
    (paramSwitchStep s).sched.transients = s.sched.transients ∨
    (paramSwitchStep s).sched.transients =
      s.sched.transients ++ [MsgId.paramValue] := by
  cases h : s.parameterProtocolState <;>
    simp only [paramSwitchStep, h] <;>
    (try split_ifs) <;>
    simp [AddTransientMessage]

/-- The mission `switch` preserves the parameter FSM, the status word,
the stores and the periodic table. -/
theorem missionSwitchStep_const (s : MavState) :
    paramView (missionSwitchStep s) = paramView s ∧
    (missionSwitchStep s).systemStatusStatus = s.systemStatusStatus ∧
    (missionSwitchStep s).sched.periodic = s.sched.periodic ∧
    (missionSwitchStep s).missions = s.missions ∧
    (missionSwitchStep s).missionMaxSize = s.missionMaxSize ∧
    (missionSwitchStep s).currentMissionIndex = s.currentMissionIndex ∧
    (missionSwitchStep s).mavlinkNewMissionListSize = s.mavlinkNewMissionListSize := by
  cases h : s.missionProtocolState <;>
    simp only [missionSwitchStep, h] <;>
    (try split_ifs) <;>
    simp [AddTransientMessage, paramView]

/-- The mission `switch` appends at most one mission-protocol id (never
a `PARAM_VALUE`) to the transient queue. -/
theorem missionSwitchStep_transients (s : MavState) :
    ∃ extra, (missionSwitchStep s).sched.transients = s.sched.transients ++ extra ∧
      MsgId.paramValue ∉ extra ∧
      ∀ id ∈ extra, id = MsgId.missionCount ∨ id = MsgId.missionItem := by
  cases h : s.missionProtocolState
  case inactive => exact ⟨[], by simp [missionSwitchStep, h], by simp, by simp⟩
  case requestListStart =>
      exact ⟨[MsgId.missionCount],
        by simp [missionSwitchStep, h, AddTransientMessage], by simp, by simp⟩
  case requestListCountdown =>
      refine ⟨[], ?_, by simp, by simp⟩
      simp only [missionSwitchStep, h]
      split_ifs <;> simp
  case requestListResponse =>
      exact ⟨[MsgId.missionItem],
        by simp [missionSwitchStep, h, AddTransientMessage], by simp, by simp⟩
  case requestListWaiting => exact ⟨[], by simp [missionSwitchStep, h], by simp, by simp⟩

/-- `MavLinkTransmit` unfolded to the dispatch loop over the due list. -/
theorem MavLinkTransmit_eq (s : MavState) :
    MavLinkTransmit s =
      runIds
        { missionSwitchStep (paramSwitchStep s) with
            sched := ⟨(tickPeriodic (missionSwitchStep (paramSwitchStep s)).sched.periodic).1, []⟩ }
        ((tickPeriodic (missionSwitchStep (paramSwitchStep s)).sched.periodic).2 ++
          (missionSwitchStep (paramSwitchStep s)).sched.transients) := by
  simp only [MavLinkTransmit, IncrementTimestep]

/-- A dispatch loop whose only `PARAM_VALUE` sits between two
`PARAM_VALUE`-free segments acts on the parameter FSM exactly as one
`PARAM_VALUE` dispatch. -/
theorem runIds_pv_cons (s : MavState) (l1 l2 : List MsgId)
    (h1 : MsgId.paramValue ∉ l1) (h2 : MsgId.paramValue ∉ l2) :
    paramView (runIds s (l1 ++ MsgId.paramValue :: l2)).1 =
      pvDispatchView (paramView s) ∧
    paramOuts (runIds s (l1 ++ MsgId.paramValue :: l2)).2 =
      pvOut s.currentParameter s.systemStatusStatus := by
  obtain ⟨ha1, ha2⟩ := runIds_no_pv s l1 h1
  obtain ⟨hca1, hca2, hca3, hca4, hca5, hca6⟩ := runIds_const s l1
  rw [runIds_append]
  obtain ⟨hd1, hd2⟩ := dispatchId_pv (runIds s l1).1
  rcases hdp : dispatchId (runIds s l1).1 .paramValue with ⟨sB, oB⟩
  rw [hdp] at hd1 hd2
  dsimp only at hd1 hd2
  obtain ⟨hb1, hb2⟩ := runIds_no_pv sB l2 h2
  have hcur : (runIds s l1).1.currentParameter = s.currentParameter :=
    congrArg ParamSub.cur ha1
  simp [runIds, hdp, paramOuts_append, ha1, ha2, hb1, hb2, hd1, hd2, hcur, hca5]

/-- A transmit tick whose parameter `switch` queues nothing: the
parameter FSM ends where the switch left it and no parameter frame goes
out. -/
theorem transmit_aux_noPV (s : MavState)
    (hP : ∀ e ∈ s.sched.periodic, e.id ≠ MsgId.paramValue)
    (hT : MsgId.paramValue ∉ s.sched.transients)
    (hsched : (paramSwitchStep s).sched = s.sched) :
    paramView (MavLinkTransmit s).1 = paramView (paramSwitchStep s) ∧
    paramOuts (MavLinkTransmit s).2 = [] ∧
    (MavLinkTransmit s).1.systemStatusStatus = s.systemStatusStatus ∧
    NPV (MavLinkTransmit s).1 := by
  rw [MavLinkTransmit_eq]
  obtain ⟨hm1, hm2, hm3, hm4, hm5, hm6, hm7⟩ :=
    missionSwitchStep_const (paramSwitchStep s)
  obtain ⟨extra, hext, hextPV, hextM⟩ :=
    missionSwitchStep_transients (paramSwitchStep s)
  have hper : (missionSwitchStep (paramSwitchStep s)).sched.periodic =
      s.sched.periodic := by rw [hm3, hsched]
  have htr : (missionSwitchStep (paramSwitchStep s)).sched.transients =
      s.sched.transients ++ extra := by rw [hext, hsched]
  obtain ⟨hq1, hq2⟩ := tickPeriodic_prop (fun id => id ≠ MsgId.paramValue)
    (missionSwitchStep (paramSwitchStep s)).sched.periodic
    (by rw [hper]; exact hP)
  have hdue : MsgId.paramValue ∉
      (tickPeriodic (missionSwitchStep (paramSwitchStep s)).sched.periodic).2 ++
        (missionSwitchStep (paramSwitchStep s)).sched.transients := by
    intro hmem
    rcases List.mem_append.1 hmem with hmem | hmem
    · exact hq2 _ hmem rfl
    · rw [htr] at hmem
      rcases List.mem_append.1 hmem with hmem | hmem
      · exact hT hmem
      · exact hextPV hmem
  obtain ⟨hr1, hr2⟩ := runIds_no_pv _ _ hdue
  obtain ⟨hc1, hc2, hc3, hc4, hc5, hc6⟩ := runIds_const
    { missionSwitchStep (paramSwitchStep s) with
        sched := ⟨(tickPeriodic (missionSwitchStep (paramSwitchStep s)).sched.periodic).1, []⟩ }
    ((tickPeriodic (missionSwitchStep (paramSwitchStep s)).sched.periodic).2 ++
      (missionSwitchStep (paramSwitchStep s)).sched.transients)
  refine ⟨?_, hr2, ?_, ?_, ?_⟩
  · rw [hr1]
    calc paramView { missionSwitchStep (paramSwitchStep s) with
          sched := ⟨(tickPeriodic (missionSwitchStep (paramSwitchStep s)).sched.periodic).1, []⟩ }
        = paramView (missionSwitchStep (paramSwitchStep s)) := rfl
      _ = paramView (paramSwitchStep s) := hm1
  · rw [hc5]
    calc ({ missionSwitchStep (paramSwitchStep s) with
          sched := ⟨(tickPeriodic (missionSwitchStep (paramSwitchStep s)).sched.periodic).1, []⟩ } : MavState).systemStatusStatus
        = (missionSwitchStep (paramSwitchStep s)).systemStatusStatus := rfl
      _ = (paramSwitchStep s).systemStatusStatus := hm2
      _ = s.systemStatusStatus := (paramSwitchStep_const s).2.1
  · rw [hc6]
    intro e he
    exact hq1 e he
  · rw [hc6]
    simp

/-- A transmit tick whose parameter `switch` queues one `PARAM_VALUE`:
that transient is dispatched on the same tick. -/
theorem transmit_aux_PV (s : MavState)
    (hP : ∀ e ∈ s.sched.periodic, e.id ≠ MsgId.paramValue)
    (hT : MsgId.paramValue ∉ s.sched.transients)
    (hsched : (paramSwitchStep s).sched =
      AddTransientMessage s.sched MsgId.paramValue) :
    paramView (MavLinkTransmit s).1 =
      pvDispatchView (paramView (paramSwitchStep s)) ∧
    paramOuts (MavLinkTransmit s).2 =
      pvOut (paramSwitchStep s).currentParameter s.systemStatusStatus ∧
    (MavLinkTransmit s).1.systemStatusStatus = s.systemStatusStatus ∧
    NPV (MavLinkTransmit s).1 := by
  rw [MavLinkTransmit_eq]
  obtain ⟨hm1, hm2, hm3, hm4, hm5, hm6, hm7⟩ :=
    missionSwitchStep_const (paramSwitchStep s)
  obtain ⟨extra, hext, hextPV, hextM⟩ :=
    missionSwitchStep_transients (paramSwitchStep s)
  have hper : (missionSwitchStep (paramSwitchStep s)).sched.periodic =
      s.sched.periodic := by
    rw [hm3, hsched]; rfl
  have htr : (missionSwitchStep (paramSwitchStep s)).sched.transients =
      (s.sched.transients ++ [MsgId.paramValue]) ++ extra := by
    rw [hext, hsched]; rfl
  obtain ⟨hq1, hq2⟩ := tickPeriodic_prop (fun id => id ≠ MsgId.paramValue)
    (missionSwitchStep (paramSwitchStep s)).sched.periodic
    (by rw [hper]; exact hP)
  have hshape :
      (tickPeriodic (missionSwitchStep (paramSwitchStep s)).sched.periodic).2 ++
        (missionSwitchStep (paramSwitchStep s)).sched.transients =
      ((tickPeriodic (missionSwitchStep (paramSwitchStep s)).sched.periodic).2 ++
        s.sched.transients) ++ (MsgId.paramValue :: extra) := by
    rw [htr]
    simp [List.append_assoc]
  have hl1 : MsgId.paramValue ∉
      (tickPeriodic (missionSwitchStep (paramSwitchStep s)).sched.periodic).2 ++
        s.sched.transients := by
    intro hmem
    rcases List.mem_append.1 hmem with hmem | hmem
    · exact hq2 _ hmem rfl
    · exact hT hmem
  obtain ⟨hv, ho⟩ := runIds_pv_cons
    { missionSwitchStep (paramSwitchStep s) with
        sched := ⟨(tickPeriodic (missionSwitchStep (paramSwitchStep s)).sched.periodic).1, []⟩ }
    ((tickPeriodic (missionSwitchStep (paramSwitchStep s)).sched.periodic).2 ++
      s.sched.transients) extra hl1 hextPV
  obtain ⟨hc1, hc2, hc3, hc4, hc5, hc6⟩ := runIds_const
    { missionSwitchStep (paramSwitchStep s) with
        sched := ⟨(tickPeriodic (missionSwitchStep (paramSwitchStep s)).sched.periodic).1, []⟩ }
    (((tickPeriodic (missionSwitchStep (paramSwitchStep s)).sched.periodic).2 ++
      s.sched.transients) ++ (MsgId.paramValue :: extra))
  rw [hshape]
  have hviewEq : paramView
      ({ missionSwitchStep (paramSwitchStep s) with
          sched := ⟨(tickPeriodic (missionSwitchStep (paramSwitchStep s)).sched.periodic).1, []⟩ } : MavState) =
      paramView (paramSwitchStep s) := hm1
  have hstEq : ({ missionSwitchStep (paramSwitchStep s) with
        sched := ⟨(tickPeriodic (missionSwitchStep (paramSwitchStep s)).sched.periodic).1, []⟩ } : MavState).systemStatusStatus =
      s.systemStatusStatus := by
    calc (missionSwitchStep (paramSwitchStep s)).systemStatusStatus
        = (paramSwitchStep s).systemStatusStatus := hm2
      _ = s.systemStatusStatus := (paramSwitchStep_const s).2.1
  refine ⟨?_, ?_, ?_, ?_, ?_⟩
  · rw [hv, hviewEq]
  · rw [ho]
    have hc : ({ missionSwitchStep (paramSwitchStep s) with
        sched := ⟨(tickPeriodic (missionSwitchStep (paramSwitchStep s)).sched.periodic).1, []⟩ } : MavState).currentParameter =
        (paramSwitchStep s).currentParameter :=
      congrArg ParamSub.cur hm1
    rw [hc, hstEq]
  · rw [hc5, hstEq]
  · rw [hc6]
    intro e he
    exact hq1 e he
  · rw [hc6]
    simp

/-- Simulation: under `NPV`, one `MavLinkTransmit` tick acts on the
parameter FSM exactly as one `paramStep`, with matching parameter
frames, and preserves the status word and `NPV`. -/
theorem transmit_paramView (s : MavState) (h : NPV s) :
    paramView (MavLinkTransmit s).1 =
      (paramStep (paramView s) s.systemStatusStatus).1 ∧
    paramOuts (MavLinkTransmit s).2 =
      (paramStep (paramView s) s.systemStatusStatus).2 ∧
    (MavLinkTransmit s).1.systemStatusStatus = s.systemStatusStatus ∧
    NPV (MavLinkTransmit s).1 := by
  obtain ⟨hP, hT⟩ := h
  cases hps : s.parameterProtocolState
  case inactive =>
      obtain ⟨h1, h2, h3, h4⟩ := transmit_aux_noPV s hP hT
        (by simp [paramSwitchStep, hps])
      exact ⟨by rw [h1]; simp [paramSwitchStep, hps, paramStep, paramView],
             by rw [h2]; simp [paramStep, paramView, hps], h3, h4⟩
  case singletonTransmitStart =>
      obtain ⟨h1, h2, h3, h4⟩ := transmit_aux_PV s hP hT
        (by simp [paramSwitchStep, hps])
      exact ⟨by rw [h1]; simp [paramSwitchStep, hps, pvDispatchView, paramStep, paramView],
             by rw [h2]; simp [paramSwitchStep, hps, paramStep, paramView], h3, h4⟩
  case singletonTransmitWaiting =>
      obtain ⟨h1, h2, h3, h4⟩ := transmit_aux_noPV s hP hT
        (by simp [paramSwitchStep, hps])
      exact ⟨by rw [h1]; simp [paramSwitchStep, hps, paramStep, paramView],
             by rw [h2]; simp [paramStep, paramView, hps], h3, h4⟩
  case streamTransmitStart =>
      obtain ⟨h1, h2, h3, h4⟩ := transmit_aux_noPV s hP hT
        (by simp [paramSwitchStep, hps])
      exact ⟨by rw [h1]; simp [paramSwitchStep, hps, paramStep, paramView],
             by rw [h2]; simp [paramStep, paramView, hps], h3, h4⟩
  case streamTransmitParam =>
      by_cases hcur : s.currentParameter < parameterCount
      · obtain ⟨h1, h2, h3, h4⟩ := transmit_aux_PV s hP hT
          (by simp [paramSwitchStep, hps, hcur])
        exact ⟨by rw [h1]; simp [paramSwitchStep, hps, hcur, pvDispatchView, paramStep, paramView],
               by rw [h2]; simp [paramSwitchStep, hps, hcur, paramStep, paramView], h3, h4⟩
      · obtain ⟨h1, h2, h3, h4⟩ := transmit_aux_noPV s hP hT
          (by simp [paramSwitchStep, hps, hcur])
        exact ⟨by rw [h1]; simp [paramSwitchStep, hps, hcur, paramStep, paramView],
               by rw [h2]; simp [paramStep, paramView, hps, hcur], h3, h4⟩
  case streamTransmitWaiting =>
      obtain ⟨h1, h2, h3, h4⟩ := transmit_aux_noPV s hP hT
        (by simp [paramSwitchStep, hps])
      exact ⟨by rw [h1]; simp [paramSwitchStep, hps, paramStep, paramView],
             by rw [h2]; simp [paramStep, paramView, hps], h3, h4⟩
  case streamTransmitDelay =>
      obtain ⟨h1, h2, h3, h4⟩ := transmit_aux_noPV s hP hT
        (by simp only [paramSwitchStep, hps]; split_ifs <;> rfl)
      refine ⟨?_, by rw [h2]; simp only [paramStep, paramView, hps]; split_ifs <;> rfl, h3, h4⟩
      rw [h1]
      by_cases hd : s.delayCountdown = 9 <;>
        simp [paramSwitchStep, hps, hd, paramStep, paramView]

/-- Iterated simulation of whole transmit ticks by `runParamSteps`. -/
theorem runTransmit_paramSim (s : MavState) (h : NPV s) (n : Nat) :
    paramView (runTransmit s n).1 =
      (runParamSteps (paramView s) s.systemStatusStatus n).1 ∧
    (runTransmit s n).2.map paramOuts =
      (runParamSteps (paramView s) s.systemStatusStatus n).2 ∧
    (runTransmit s n).1.systemStatusStatus = s.systemStatusStatus ∧
    NPV (runTransmit s n).1 := by
  induction n generalizing s with
  | zero => exact ⟨rfl, rfl, rfl, h⟩
  | succ n ih =>
      obtain ⟨h1, h2, h3, h4⟩ := transmit_paramView s h
      rcases ht : MavLinkTransmit s with ⟨s1, o⟩
      rw [ht] at h1 h2 h3 h4
      dsimp only at h1 h2 h3 h4
      obtain ⟨ih1, ih2, ih3, ih4⟩ := ih s1 h4
      rcases hp : paramStep (paramView s) s.systemStatusStatus with ⟨p1, o1⟩
      rw [hp] at h1 h2
      dsimp only at h1 h2
      simp [runTransmit, runParamSteps, ht, hp, ih1, ih2, ih3, ih4, h1, h2, h3]

set_option maxRecDepth 4000 in
/-- The concrete 46-tick run of the parameter-stream small-step system
from `StreamStart`: it emits `c6Schedule` and ends Inactive. -/
theorem runParamSteps_stream (st cur : Nat) :
    runParamSteps ⟨.streamTransmitStart, cur, 0⟩ st 46 =
      (⟨.inactive, 4, 0⟩, c6Schedule st) := by
  simp [runParamSteps, paramStep, c6Schedule, c6Gap, parameterCount]

/-- C6: a `PARAM_REQUEST_LIST` received while the parameter FSM is
Inactive starts a stream that transmits parameters 0, 1, 2, 3 in order
on ticks 1, 12, 23, 34 of the following 46 transmit ticks — exactly ten
send-free ticks between consecutive transmissions — after which the FSM
is back to Inactive; received in any other state the request is a
no-op.  (Assumes no `PARAM_VALUE` already pending, which holds at boot
and whenever the FSM is Inactive.) -/
theorem claim_C6 (s : MavState) (hN : NPV s) (hD : s.delayCountdown = 0) :
    (∀ s' : MavState, s'.parameterProtocolState ≠ .inactive →
       MavLinkReceiveMsg s' .paramRequestList = (s', [])) ∧
    (s.parameterProtocolState = .inactive →
      (runTransmit (MavLinkReceiveMsg s .paramRequestList).1 46).2.map paramOuts =
        c6Schedule s.systemStatusStatus ∧
      paramView (runTransmit (MavLinkReceiveMsg s .paramRequestList).1 46).1 =
        ⟨.inactive, 4, 0⟩) := by
  constructor
  · intro s' h'
    simp [MavLinkReceiveMsg, h']
  · intro hInact
    have hrecv : MavLinkReceiveMsg s .paramRequestList =
        ({ s with parameterProtocolState := .streamTransmitStart }, []) := by
      simp [MavLinkReceiveMsg, hInact]
    rw [hrecv]
    have hN1 : NPV ({ s with parameterProtocolState := .streamTransmitStart } : MavState) := hN
    obtain ⟨r1, r2, r3, r4⟩ :=
      runTransmit_paramSim { s with parameterProtocolState := .streamTransmitStart } hN1 46
    have hview : paramView ({ s with parameterProtocolState := .streamTransmitStart } : MavState) =
        ⟨.streamTransmitStart, s.currentParameter, 0⟩ := by
      simp [paramView, hD]
    constructor
    · rw [r2, hview]
      rw [runParamSteps_stream]
    · rw [r1, hview]
      rw [runParamSteps_stream]

/-- Witness for C6 from the boot state. -/
theorem claim_C6_witness :
    NPV initialMavState ∧ initialMavState.delayCountdown = 0 ∧
    initialMavState.parameterProtocolState = ParamState.inactive ∧
    (runTransmit (MavLinkReceiveMsg initialMavState .paramRequestList).1 46).2.map paramOuts =
      c6Schedule initialMavState.systemStatusStatus :=
  ⟨by decide, rfl, rfl, ((claim_C6 initialMavState (by decide) rfl).2 rfl).1⟩

/-- `MavLinkMissionItemSend` only reads the store, the serve index and
the current-mission index. -/
theorem missionItemSend_congr (s t : MavState) (h1 : s.missions = t.missions)
    (h2 : s.currentMission = t.currentMission)
    (h3 : s.currentMissionIndex = t.currentMissionIndex) :
    MavLinkMissionItemSend s = MavLinkMissionItemSend t := by
  simp [MavLinkMissionItemSend, GetMission, h1, h2, h3]

/-- A dispatch loop whose only mission id is one `MISSION_COUNT` acts on
the mission FSM as one `MISSION_COUNT` dispatch. -/
theorem runIds_mc_cons (s : MavState) (l1 l2 : List MsgId)
    (h1 : ∀ id ∈ l1, id ≠ MsgId.missionCount ∧ id ≠ MsgId.missionItem)
    (h2 : ∀ id ∈ l2, id ≠ MsgId.missionCount ∧ id ≠ MsgId.missionItem) :
    missionView (runIds s (l1 ++ MsgId.missionCount :: l2)).1 =
      ⟨.requestListCountdown, s.currentMission, s.missionProtocolRequestCounter⟩ ∧
    missionOuts (runIds s (l1 ++ MsgId.missionCount :: l2)).2 =
      [.missionCountOut (GetMissionCount s)] := by
  obtain ⟨ha1, ha2⟩ := runIds_no_mission s l1 h1
  obtain ⟨hc1, hc2, hc3, hc4, hc5, hc6⟩ := runIds_const s l1
  rw [runIds_append]
  obtain ⟨hd1, hd2⟩ := dispatchId_mc (runIds s l1).1
  rcases hdp : dispatchId (runIds s l1).1 .missionCount with ⟨sB, oB⟩
  rw [hdp] at hd1 hd2
  dsimp only at hd1 hd2
  obtain ⟨hb1, hb2⟩ := runIds_no_mission sB l2 h2
  have hcur : (runIds s l1).1.currentMission = s.currentMission :=
    congrArg MissionSub.cur ha1
  have hcnt : (runIds s l1).1.missionProtocolRequestCounter =
      s.missionProtocolRequestCounter := congrArg MissionSub.counter ha1
  have hGC : GetMissionCount (runIds s l1).1 = GetMissionCount s := by
    simp [GetMissionCount, hc1]
  simp [runIds, hdp, missionOuts_append, ha1, ha2, hb1, hb2, hd1, hd2, hcur,
    hcnt, hGC]

/-- A dispatch loop whose only mission id is one `MISSION_ITEM` acts on
the mission FSM as one `MISSION_ITEM` dispatch. -/
theorem runIds_mi_cons (s : MavState) (l1 l2 : List MsgId)
    (h1 : ∀ id ∈ l1, id ≠ MsgId.missionCount ∧ id ≠ MsgId.missionItem)
    (h2 : ∀ id ∈ l2, id ≠ MsgId.missionCount ∧ id ≠ MsgId.missionItem) :
    missionView (runIds s (l1 ++ MsgId.missionItem :: l2)).1 =
      ⟨.requestListCountdown, (s.currentMission + 1) % 256, 0⟩ ∧
    missionOuts (runIds s (l1 ++ MsgId.missionItem :: l2)).2 =
      MavLinkMissionItemSend s := by
  obtain ⟨ha1, ha2⟩ := runIds_no_mission s l1 h1
  obtain ⟨hc1, hc2, hc3, hc4, hc5, hc6⟩ := runIds_const s l1
  rw [runIds_append]
  obtain ⟨hd1, hd2⟩ := dispatchId_mi (runIds s l1).1
  rcases hdp : dispatchId (runIds s l1).1 .missionItem with ⟨sB, oB⟩
  rw [hdp] at hd1 hd2
  dsimp only at hd1 hd2
  obtain ⟨hb1, hb2⟩ := runIds_no_mission sB l2 h2
  have hcur : (runIds s l1).1.currentMission = s.currentMission :=
    congrArg MissionSub.cur ha1
  have hsend : MavLinkMissionItemSend (runIds s l1).1 = MavLinkMissionItemSend s :=
    missionItemSend_congr _ _ hc1 hcur hc3
  simp [runIds, hdp, missionOuts_append, ha1, ha2, hb1, hb2, hd1, hd2, hcur,
    hsend]

/-- `MavLinkTransmit` preserves store, indices and status word. -/
theorem transmit_const (s : MavState) :
    (MavLinkTransmit s).1.missions = s.missions ∧
    (MavLinkTransmit s).1.missionMaxSize = s.missionMaxSize ∧
    (MavLinkTransmit s).1.currentMissionIndex = s.currentMissionIndex ∧
    (MavLinkTransmit s).1.mavlinkNewMissionListSize = s.mavlinkNewMissionListSize ∧
    (MavLinkTransmit s).1.systemStatusStatus = s.systemStatusStatus := by
  rw [MavLinkTransmit_eq]
  obtain ⟨hp1, hp2, hp3, hp4, hp5, hp6, hp7⟩ := paramSwitchStep_const s
  obtain ⟨hm1, hm2, hm3, hm4, hm5, hm6, hm7⟩ :=
    missionSwitchStep_const (paramSwitchStep s)
  obtain ⟨hc1, hc2, hc3, hc4, hc5, hc6⟩ := runIds_const
    { missionSwitchStep (paramSwitchStep s) with
        sched := ⟨(tickPeriodic (missionSwitchStep (paramSwitchStep s)).sched.periodic).1, []⟩ }
    ((tickPeriodic (missionSwitchStep (paramSwitchStep s)).sched.periodic).2 ++
      (missionSwitchStep (paramSwitchStep s)).sched.transients)
  exact ⟨by rw [hc1]; exact hm4.trans hp4,
         by rw [hc2]; exact hm5.trans hp5,
         by rw [hc3]; exact hm6.trans hp6,
         by rw [hc4]; exact hm7.trans hp7,
         by rw [hc5]; exact hm2.trans hp2⟩

/-- The tail of a transmit tick (scheduler tick plus dispatch loop) when
nothing mission-protocol-related is due: the mission FSM is untouched,
no mission frame goes out, and `NMV` holds afterwards. -/
theorem transmit_tail_noMission (u : MavState)
    (hP : ∀ e ∈ u.sched.periodic, e.id ≠ MsgId.missionCount ∧ e.id ≠ MsgId.missionItem)
    (hT : ∀ id ∈ u.sched.transients, id ≠ MsgId.missionCount ∧ id ≠ MsgId.missionItem) :
    missionView (runIds { u with sched := ⟨(tickPeriodic u.sched.periodic).1, []⟩ }
        ((tickPeriodic u.sched.periodic).2 ++ u.sched.transients)).1 = missionView u ∧
    missionOuts (runIds { u with sched := ⟨(tickPeriodic u.sched.periodic).1, []⟩ }
        ((tickPeriodic u.sched.periodic).2 ++ u.sched.transients)).2 = [] ∧
    NMV (runIds { u with sched := ⟨(tickPeriodic u.sched.periodic).1, []⟩ }
        ((tickPeriodic u.sched.periodic).2 ++ u.sched.transients)).1 := by
  obtain ⟨hq1, hq2⟩ := tickPeriodic_prop
    (fun id => id ≠ MsgId.missionCount ∧ id ≠ MsgId.missionItem)
    u.sched.periodic hP
  have hdue : ∀ id ∈ (tickPeriodic u.sched.periodic).2 ++ u.sched.transients,
      id ≠ MsgId.missionCount ∧ id ≠ MsgId.missionItem := by
    intro id hid
    rcases List.mem_append.1 hid with hid | hid
    · exact hq2 id hid
    · exact hT id hid
  obtain ⟨hr1, hr2⟩ := runIds_no_mission _ _ hdue
  obtain ⟨hc1, hc2, hc3, hc4, hc5, hc6⟩ := runIds_const
    { u with sched := ⟨(tickPeriodic u.sched.periodic).1, []⟩ }
    ((tickPeriodic u.sched.periodic).2 ++ u.sched.transients)
  exact ⟨hr1, hr2, by rw [hc6]; exact hq1, by rw [hc6]; simp⟩

/-- The tail of a transmit tick whose only due mission id is a final
`MISSION_COUNT` transient. -/
theorem transmit_tail_mc (u : MavState) (ts : List MsgId)
    (hP : ∀ e ∈ u.sched.periodic, e.id ≠ MsgId.missionCount ∧ e.id ≠ MsgId.missionItem)
    (hts : ∀ id ∈ ts, id ≠ MsgId.missionCount ∧ id ≠ MsgId.missionItem)
    (htr : u.sched.transients = ts ++ [MsgId.missionCount]) :
    missionView (runIds { u with sched := ⟨(tickPeriodic u.sched.periodic).1, []⟩ }
        ((tickPeriodic u.sched.periodic).2 ++ u.sched.transients)).1 =
      ⟨.requestListCountdown, u.currentMission, u.missionProtocolRequestCounter⟩ ∧
    missionOuts (runIds { u with sched := ⟨(tickPeriodic u.sched.periodic).1, []⟩ }
        ((tickPeriodic u.sched.periodic).2 ++ u.sched.transients)).2 =
      [.missionCountOut (GetMissionCount u)] ∧
    NMV (runIds { u with sched := ⟨(tickPeriodic u.sched.periodic).1, []⟩ }
        ((tickPeriodic u.sched.periodic).2 ++ u.sched.transients)).1 := by
  obtain ⟨hq1, hq2⟩ := tickPeriodic_prop
    (fun id => id ≠ MsgId.missionCount ∧ id ≠ MsgId.missionItem)
    u.sched.periodic hP
  have hshape : (tickPeriodic u.sched.periodic).2 ++ u.sched.transients =
      ((tickPeriodic u.sched.periodic).2 ++ ts) ++ (MsgId.missionCount :: []) := by
    rw [htr]
    simp [List.append_assoc]
  have hl1 : ∀ id ∈ (tickPeriodic u.sched.periodic).2 ++ ts,
      id ≠ MsgId.missionCount ∧ id ≠ MsgId.missionItem := by
    intro id hid
    rcases List.mem_append.1 hid with hid | hid
    · exact hq2 id hid
    · exact hts id hid
  obtain ⟨hv, ho⟩ := runIds_mc_cons
    { u with sched := ⟨(tickPeriodic u.sched.periodic).1, []⟩ }
    ((tickPeriodic u.sched.periodic).2 ++ ts) [] hl1 (by simp)
  obtain ⟨hc1, hc2, hc3, hc4, hc5, hc6⟩ := runIds_const
    { u with sched := ⟨(tickPeriodic u.sched.periodic).1, []⟩ }
    (((tickPeriodic u.sched.periodic).2 ++ ts) ++ (MsgId.missionCount :: []))
  rw [hshape]
  exact ⟨hv, ho, by rw [hc6]; exact hq1, by rw [hc6]; simp⟩

/-- The tail of a transmit tick whose only due mission id is a final
`MISSION_ITEM` transient. -/
theorem transmit_tail_mi (u : MavState) (ts : List MsgId)
    (hP : ∀ e ∈ u.sched.periodic, e.id ≠ MsgId.missionCount ∧ e.id ≠ MsgId.missionItem)
    (hts : ∀ id ∈ ts, id ≠ MsgId.missionCount ∧ id ≠ MsgId.missionItem)
    (htr : u.sched.transients = ts ++ [MsgId.missionItem]) :
    missionView (runIds { u with sched := ⟨(tickPeriodic u.sched.periodic).1, []⟩ }
        ((tickPeriodic u.sched.periodic).2 ++ u.sched.transients)).1 =
      ⟨.requestListCountdown, (u.currentMission + 1) % 256, 0⟩ ∧
    missionOuts (runIds { u with sched := ⟨(tickPeriodic u.sched.periodic).1, []⟩ }
        ((tickPeriodic u.sched.periodic).2 ++ u.sched.transients)).2 =
      MavLinkMissionItemSend u ∧
    NMV (runIds { u with sched := ⟨(tickPeriodic u.sched.periodic).1, []⟩ }
        ((tickPeriodic u.sched.periodic).2 ++ u.sched.transients)).1 := by
  obtain ⟨hq1, hq2⟩ := tickPeriodic_prop
    (fun id => id ≠ MsgId.missionCount ∧ id ≠ MsgId.missionItem)
    u.sched.periodic hP
  have hshape : (tickPeriodic u.sched.periodic).2 ++ u.sched.transients =
      ((tickPeriodic u.sched.periodic).2 ++ ts) ++ (MsgId.missionItem :: []) := by
    rw [htr]
    simp [List.append_assoc]
  have hl1 : ∀ id ∈ (tickPeriodic u.sched.periodic).2 ++ ts,
      id ≠ MsgId.missionCount ∧ id ≠ MsgId.missionItem := by
    intro id hid
    rcases List.mem_append.1 hid with hid | hid
    · exact hq2 id hid
    · exact hts id hid
  obtain ⟨hv, ho⟩ := runIds_mi_cons
    { u with sched := ⟨(tickPeriodic u.sched.periodic).1, []⟩ }
    ((tickPeriodic u.sched.periodic).2 ++ ts) [] hl1 (by simp)
  obtain ⟨hc1, hc2, hc3, hc4, hc5, hc6⟩ := runIds_const
    { u with sched := ⟨(tickPeriodic u.sched.periodic).1, []⟩ }
    (((tickPeriodic u.sched.periodic).2 ++ ts) ++ (MsgId.missionItem :: []))
  rw [hshape]
  refine ⟨hv, ?_, by rw [hc6]; exact hq1, by rw [hc6]; simp⟩
  rw [ho]
  exact missionItemSend_congr _ _ rfl rfl rfl

/-- Simulation: under `NMV`, one `MavLinkTransmit` tick acts on the
mission FSM exactly as one `missionStep`, with matching mission frames,
and preserves `NMV`. -/
theorem transmit_missionView (s : MavState) (h : NMV s) :
    missionView (MavLinkTransmit s).1 =
      (missionStep (missionView s) s.missions s.currentMissionIndex).1 ∧
    missionOuts (MavLinkTransmit s).2 =
      (missionStep (missionView s) s.missions s.currentMissionIndex).2 ∧
    NMV (MavLinkTransmit s).1 := by
  obtain ⟨hP, hT⟩ := h
  obtain ⟨hp1, hp2, hp3, hp4, hp5, hp6, hp7⟩ := paramSwitchStep_const s
  have hmst : (paramSwitchStep s).missionProtocolState = s.missionProtocolState :=
    congrArg MissionSub.mstate hp1
  have hmcur : (paramSwitchStep s).currentMission = s.currentMission :=
    congrArg MissionSub.cur hp1
  have hmcnt : (paramSwitchStep s).missionProtocolRequestCounter =
      s.missionProtocolRequestCounter := congrArg MissionSub.counter hp1
  have hs1per : ∀ e ∈ (paramSwitchStep s).sched.periodic,
      e.id ≠ MsgId.missionCount ∧ e.id ≠ MsgId.missionItem := by
    rw [hp3]; exact hP
  have hs1tr : ∀ id ∈ (paramSwitchStep s).sched.transients,
      id ≠ MsgId.missionCount ∧ id ≠ MsgId.missionItem := by
    rcases paramSwitchStep_transients s with h' | h' <;> rw [h']
    · exact hT
    · intro id hid
      rcases List.mem_append.1 hid with hid | hid
      · exact hT id hid
      · simp only [List.mem_singleton] at hid
        subst hid
        exact ⟨by simp, by simp⟩
  rw [MavLinkTransmit_eq]
  cases hms : s.missionProtocolState
  case inactive =>
      have hsw : missionSwitchStep (paramSwitchStep s) = paramSwitchStep s := by
        simp [missionSwitchStep, hmst.trans hms]
      rw [hsw]
      obtain ⟨hr1, hr2, hr3⟩ := transmit_tail_noMission (paramSwitchStep s) hs1per hs1tr
      refine ⟨?_, ?_, hr3⟩
      · rw [hr1, hp1]
        simp [missionStep, missionView, hms]
      · rw [hr2]
        simp [missionStep, missionView, hms]
  case requestListWaiting =>
      have hsw : missionSwitchStep (paramSwitchStep s) = paramSwitchStep s := by
        simp [missionSwitchStep, hmst.trans hms]
      rw [hsw]
      obtain ⟨hr1, hr2, hr3⟩ := transmit_tail_noMission (paramSwitchStep s) hs1per hs1tr
      refine ⟨?_, ?_, hr3⟩
      · rw [hr1, hp1]
        simp [missionStep, missionView, hms]
      · rw [hr2]
        simp [missionStep, missionView, hms]
  case requestListCountdown =>
      by_cases hcnt20 : s.missionProtocolRequestCounter > 20
      · have hsw : missionSwitchStep (paramSwitchStep s) =
            { paramSwitchStep s with
                missionProtocolRequestCounter := 0
                missionProtocolState := .inactive } := by
          simp [missionSwitchStep, hmst.trans hms, hmcnt, hcnt20]
        rw [hsw]
        obtain ⟨hr1, hr2, hr3⟩ := transmit_tail_noMission
          { paramSwitchStep s with
              missionProtocolRequestCounter := 0
              missionProtocolState := .inactive } hs1per hs1tr
        refine ⟨?_, ?_, hr3⟩
        · rw [hr1]
          simp [missionStep, missionView, hms, hcnt20, hmcur]
        · rw [hr2]
          simp [missionStep, missionView, hms, hcnt20]
      · have hsw : missionSwitchStep (paramSwitchStep s) =
            { paramSwitchStep s with missionProtocolRequestCounter :=
                (s.missionProtocolRequestCounter + 1) % 256 } := by
          simp [missionSwitchStep, hmst.trans hms, hmcnt, hcnt20]
        rw [hsw]
        obtain ⟨hr1, hr2, hr3⟩ := transmit_tail_noMission
          { paramSwitchStep s with missionProtocolRequestCounter :=
              (s.missionProtocolRequestCounter + 1) % 256 } hs1per hs1tr
        refine ⟨?_, ?_, hr3⟩
        · rw [hr1]
          simp [missionStep, missionView, hms, hcnt20, hmcur, hmst]
        · rw [hr2]
          simp [missionStep, missionView, hms, hcnt20]
  case requestListStart =>
      have hsw : missionSwitchStep (paramSwitchStep s) =
          { paramSwitchStep s with
              sched := AddTransientMessage (paramSwitchStep s).sched MsgId.missionCount
              missionProtocolRequestCounter := 0
              currentMission := 0
              missionProtocolState := .requestListCountdown } := by
        simp [missionSwitchStep, hmst.trans hms]
      rw [hsw]
      obtain ⟨hr1, hr2, hr3⟩ := transmit_tail_mc
        { paramSwitchStep s with
            sched := AddTransientMessage (paramSwitchStep s).sched MsgId.missionCount
            missionProtocolRequestCounter := 0
            currentMission := 0
            missionProtocolState := .requestListCountdown }
        (paramSwitchStep s).sched.transients hs1per hs1tr rfl
      refine ⟨?_, ?_, hr3⟩
      · rw [hr1]
        simp [missionStep, missionView, hms]
      · rw [hr2]
        simp [missionStep, missionView, hms, GetMissionCount, hp4]
  case requestListResponse =>
      have hsw : missionSwitchStep (paramSwitchStep s) =
          { paramSwitchStep s with
              sched := AddTransientMessage (paramSwitchStep s).sched MsgId.missionItem
              missionProtocolState := .requestListWaiting } := by
        simp [missionSwitchStep, hmst.trans hms]
      rw [hsw]
      obtain ⟨hr1, hr2, hr3⟩ := transmit_tail_mi
        { paramSwitchStep s with
            sched := AddTransientMessage (paramSwitchStep s).sched MsgId.missionItem
            missionProtocolState := .requestListWaiting }
        (paramSwitchStep s).sched.transients hs1per hs1tr rfl
      refine ⟨?_, ?_, hr3⟩
      · rw [hr1]
        simp [missionStep, missionView, hms, hmcur]
      · rw [hr2]
        have hsend : MavLinkMissionItemSend
            ({ paramSwitchStep s with
                sched := AddTransientMessage (paramSwitchStep s).sched MsgId.missionItem
                missionProtocolState := .requestListWaiting } : MavState) =
            MavLinkMissionItemSend s :=
          missionItemSend_congr _ _ hp4 hmcur hp6
        rw [hsend]
        simp [missionStep, missionView, hms, MavLinkMissionItemSend, GetMission]

/-- Iterated simulation of whole transmit ticks by `runMissionSteps`,
with store and current-index preservation. -/
theorem runTransmit_missionSim (s : MavState) (h : NMV s) (n : Nat) :
    missionView (runTransmit s n).1 =
      (runMissionSteps (missionView s) s.missions s.currentMissionIndex n).1 ∧
    (runTransmit s n).2.map missionOuts =
      (runMissionSteps (missionView s) s.missions s.currentMissionIndex n).2 ∧
    NMV (runTransmit s n).1 ∧
    (runTransmit s n).1.missions = s.missions ∧
    (runTransmit s n).1.currentMissionIndex = s.currentMissionIndex := by
  induction n generalizing s with
  | zero => exact ⟨rfl, rfl, h, rfl, rfl⟩
  | succ n ih =>
      obtain ⟨h1, h2, h3⟩ := transmit_missionView s h
      obtain ⟨hk1, hk2, hk3, hk4, hk5⟩ := transmit_const s
      rcases ht : MavLinkTransmit s with ⟨s1, o⟩
      rw [ht] at h1 h2 h3 hk1 hk3
      dsimp only at h1 h2 h3 hk1 hk3
      obtain ⟨ih1, ih2, ih3, ih4, ih5⟩ := ih s1 h3
      rcases hp : missionStep (missionView s) s.missions s.currentMissionIndex
        with ⟨m1, o1⟩
      rw [hp] at h1 h2
      dsimp only at h1 h2
      simp [runTransmit, runMissionSteps, ht, hp, ih1, ih2, ih3, ih4, ih5, h1,
        h2, hk1, hk3]

/-- A mission-FSM countdown run: starting from counter `c ≤ 21`, the FSM
stays in the countdown (incrementing) while the old counter is at most
20, silently, and reverts to Inactive on the tick that reads 21. -/
theorem runMissionSteps_countdown (store : List Mission) (curIdx : Int)
    (cur : Nat) :
    ∀ n c, c ≤ 21 → c + n ≤ 22 →
      (runMissionSteps ⟨.requestListCountdown, cur, c⟩ store curIdx n).1 =
        (if c + n ≤ 21 then (⟨.requestListCountdown, cur, c + n⟩ : MissionSub)
         else ⟨.inactive, cur, 0⟩) ∧
      (runMissionSteps ⟨.requestListCountdown, cur, c⟩ store curIdx n).2 =
        List.replicate n [] := by
  intro n
  induction n with
  | zero =>
      intro c hc1 hc2
      have hle : c + 0 ≤ 21 := by omega
      simp [runMissionSteps, hle, hc1]
  | succ n ih =>
      intro c hc1 hc2
      by_cases hgt : c > 20
      · have hc21 : c = 21 := by omega
        have hn0 : n = 0 := by omega
        subst hc21
        subst hn0
        simp [runMissionSteps, missionStep]
      · have hstep : missionStep ⟨.requestListCountdown, cur, c⟩ store curIdx =
            (⟨.requestListCountdown, cur, c + 1⟩, []) := by
          simp [missionStep, hgt, Nat.mod_eq_of_lt (by omega : c + 1 < 256)]
        obtain ⟨ih1, ih2⟩ := ih (c + 1) (by omega) (by omega)
        rw [show c + (n + 1) = (c + 1) + n from by omega]
        simp [runMissionSteps, hstep, ih1, ih2, List.replicate_succ]

/-- C8: a `MISSION_REQUEST_LIST` starts a download only from the
Inactive mission FSM (any other state ignores it); the ListStart tick
announces the store size and enters the countdown with the counter and
serve index reset; and an un-advanced countdown from counter 0 stays in
the countdown through 21 ticks, then silently reverts to Inactive on
tick 22 — emitting no mission frame and leaving the store, the current
mission index and the serve index unchanged.  (Assumes no
`MISSION_COUNT`/`MISSION_ITEM` already pending.) -/
theorem claim_C8 (s : MavState) (hN : NMV s) :
    (s.missionProtocolState ≠ .inactive →
      MavLinkReceiveMsg s .missionRequestList = (s, [])) ∧
    (s.missionProtocolState = .inactive →
      MavLinkReceiveMsg s .missionRequestList =
        ({ s with missionProtocolState := .requestListStart }, [])) ∧
    (s.missionProtocolState = .requestListStart →
      missionView (MavLinkTransmit s).1 = ⟨.requestListCountdown, 0, 0⟩ ∧
      missionOuts (MavLinkTransmit s).2 =
        [.missionCountOut (s.missions.length % 256)]) ∧
    (s.missionProtocolState = .requestListCountdown →
      s.missionProtocolRequestCounter = 0 →
      (∀ k, k ≤ 21 →
        missionView (runTransmit s k).1 =
          ⟨.requestListCountdown, s.currentMission, k⟩) ∧
      missionView (runTransmit s 22).1 = ⟨.inactive, s.currentMission, 0⟩ ∧
      (runTransmit s 22).2.map missionOuts = List.replicate 22 [] ∧
      (runTransmit s 22).1.missions = s.missions ∧
      (runTransmit s 22).1.currentMissionIndex = s.currentMissionIndex) := by
  refine ⟨?_, ?_, ?_, ?_⟩
  · intro h'
    simp [MavLinkReceiveMsg, h']
  · intro h'
    simp [MavLinkReceiveMsg, h']
  · intro hst
    obtain ⟨t1, t2, t3⟩ := transmit_missionView s hN
    have hview : missionView s =
        ⟨.requestListStart, s.currentMission, s.missionProtocolRequestCounter⟩ := by
      simp [missionView, hst]
    constructor
    · rw [t1, hview]
      simp [missionStep]
    · rw [t2, hview]
      simp [missionStep]
  · intro hcd hcnt
    have hview : missionView s =
        ⟨.requestListCountdown, s.currentMission, 0⟩ := by
      simp [missionView, hcd, hcnt]
    refine ⟨?_, ?_, ?_, ?_, ?_⟩
    · intro k hk
      obtain ⟨r1, r2, r3, r4, r5⟩ := runTransmit_missionSim s hN k
      rw [r1, hview]
      obtain ⟨a1, a2⟩ := runMissionSteps_countdown s.missions
        s.currentMissionIndex s.currentMission k 0 (by omega) (by omega)
      rw [a1, if_pos (show 0 + k ≤ 21 from by omega)]
      norm_num
    · obtain ⟨r1, r2, r3, r4, r5⟩ := runTransmit_missionSim s hN 22
      rw [r1, hview]
      obtain ⟨a1, a2⟩ := runMissionSteps_countdown s.missions
        s.currentMissionIndex s.currentMission 22 0 (by omega) (by omega)
      rw [a1]
      norm_num
    · obtain ⟨r1, r2, r3, r4, r5⟩ := runTransmit_missionSim s hN 22
      rw [r2, hview]
      obtain ⟨a1, a2⟩ := runMissionSteps_countdown s.missions
        s.currentMissionIndex s.currentMission 22 0 (by omega) (by omega)
      rw [a2]
    · exact (runTransmit_missionSim s hN 22).2.2.2.1
    · exact (runTransmit_missionSim s hN 22).2.2.2.2

/-- Witness for C8: the timeout run from a freshly-entered countdown. -/
theorem claim_C8_witness :
    NMV ({ initialMavState with missionProtocolState := .requestListCountdown } : MavState) ∧
    missionView (runTransmit
        { initialMavState with missionProtocolState := .requestListCountdown } 22).1 =
      ⟨.inactive, 0, 0⟩ :=
  ⟨by decide,
    (((claim_C8 { initialMavState with missionProtocolState := .requestListCountdown }
      (by decide)).2.2.2 rfl rfl).2.1 : _)⟩

/-- C10: a received `MISSION_REQUEST` moves the mission FSM into
ListResponse whenever the requested sequence number (truncated to 8
bits) equals the serve index `currentMission` — from every
mission-protocol state, Inactive included; the sequence match is the
only guard, and on a mismatch nothing at all happens.  From
ListResponse the next transmit tick sends that mission item (when the
store holds it). -/
theorem claim_C10 (s : MavState) (seq : Nat) :
    (s.currentMission = seq % 256 →
      MavLinkReceiveMsg s (.missionRequest seq) =
        ({ s with missionProtocolState := .requestListResponse }, [])) ∧
    (s.currentMission ≠ seq % 256 →
      MavLinkReceiveMsg s (.missionRequest seq) = (s, [])) ∧
    (NMV s → s.missionProtocolState = .requestListResponse →
      s.currentMission < s.missions.length →
      MavOut.missionItemOut s.currentMission
          (decide (s.currentMission = (s.currentMissionIndex % 256).toNat)) ∈
        (MavLinkTransmit s).2) := by
  refine ⟨?_, ?_, ?_⟩
  · intro h
    simp [MavLinkReceiveMsg, h]
  · intro h
    simp [MavLinkReceiveMsg, h]
  · intro hN hst hlt
    obtain ⟨t1, t2, t3⟩ := transmit_missionView s hN
    have hview : missionView s =
        ⟨.requestListResponse, s.currentMission, s.missionProtocolRequestCounter⟩ := by
      simp [missionView, hst]
    have hg : s.missions[s.currentMission]? = some s.missions[s.currentMission] :=
      List.getElem?_eq_getElem hlt
    · have houts : missionOuts (MavLinkTransmit s).2 =
          [MavOut.missionItemOut s.currentMission
            (decide (s.currentMission = (s.currentMissionIndex % 256).toNat))] := by
        rw [t2, hview]
        simp [missionStep, hg]
      have hmem : MavOut.missionItemOut s.currentMission
          (decide (s.currentMission = (s.currentMissionIndex % 256).toNat)) ∈
          missionOuts (MavLinkTransmit s).2 := by
        rw [houts]
        simp
      exact List.mem_of_mem_filter hmem

/-- Witness for C10: an item request hitting the serve index while the
FSM is Inactive still arms ListResponse; with one stored mission the
next tick transmits item 0. -/
theorem claim_C10_witness :
    (({ initialMavState with
        missions := [⟨0, 16, 1⟩]
        missionProtocolState := .requestListResponse } : MavState).currentMission <
      ({ initialMavState with
        missions := [⟨0, 16, 1⟩]
        missionProtocolState := .requestListResponse } : MavState).missions.length) ∧
    MavOut.missionItemOut 0 (decide ((0 : Nat) =
        ((({ initialMavState with
            missions := [⟨0, 16, 1⟩]
            missionProtocolState := .requestListResponse } : MavState).currentMissionIndex % 256).toNat))) ∈
      (MavLinkTransmit { initialMavState with
        missions := [⟨0, 16, 1⟩]
        missionProtocolState := .requestListResponse }).2 :=
  ⟨by decide,
    (claim_C10 { initialMavState with
      missions := [⟨0, 16, 1⟩]
      missionProtocolState := .requestListResponse } 0).2.2 (by decide) rfl (by decide)⟩

/-- One in-sequence mission item received with room in the store: the
item is appended, the current index is set when flagged, and the reply is
`accepted` exactly when the new size meets the expected total, otherwise
a request for the next sequence number. -/
theorem receive_item_inseq (s : MavState) (cur : Bool) (f1 f2 f3 : Nat)
    (hmax : s.missionMaxSize ≤ 255)
    (hroom : s.missions.length < s.missionMaxSize) :
    MavLinkReceiveMsg s (.missionItem s.missions.length cur f1 f2 f3) =
      (let s2 := if cur then
          SetCurrentMission { s with missions := s.missions ++ [⟨f1, f2, f3⟩] }
            s.missions.length
        else { s with missions := s.missions ++ [⟨f1, f2, f3⟩] }
       if s.missions.length + 1 = s.mavlinkNewMissionListSize then
         (s2, [.missionAckOut .accepted])
       else (s2, [.missionRequestOut (s.missions.length + 1)])) := by
  have hlen : s.missions.length ≤ 254 := by omega
  have h1 : s.missions.length % 65536 = s.missions.length := by omega
  have h2 : s.missions.length % 65536 % 256 = s.missions.length := by omega
  have h3 : (s.missions.length % 65536 + 1) % 65536 = s.missions.length + 1 := by omega
  have hGC : GetMissionCount s = s.missions.length % 65536 := by
    unfold GetMissionCount
    omega
  have hval : (Int.ofNat (s.missions.length + 1)) ≠ -1 := by
    intro h
    have h' : ((s.missions.length + 1 : Nat) : Int) = -1 := h
    omega
  have hnls2 : ∀ t : MavState,
      (if cur then SetCurrentMission t s.missions.length else t).mavlinkNewMissionListSize =
        t.mavlinkNewMissionListSize := by
    intro t
    cases cur
    · rfl
    · simp only [SetCurrentMission]
      split_ifs <;> rfl
  simp only [MavLinkReceiveMsg, AppendMission]
  rw [if_pos hGC, if_pos hroom]
  simp only [h2, h3]
  rw [if_pos hval]
  have hkey := hnls2 { s with missions := s.missions ++ [⟨f1, f2, f3⟩] }
  simp only [hkey]
  by_cases hacc : s.missions.length + 1 = s.mavlinkNewMissionListSize
  · have hi : Int.ofNat (s.missions.length + 1) =
        Int.ofNat ({ s with missions := s.missions ++ [⟨f1, f2, f3⟩]} : MavState).mavlinkNewMissionListSize := by
      simp
      omega
    rw [if_pos hi]
    simp [hacc]
  · have hi : ¬ (Int.ofNat (s.missions.length + 1) =
        Int.ofNat ({ s with missions := s.missions ++ [⟨f1, f2, f3⟩]} : MavState).mavlinkNewMissionListSize) := by
      simp
      omega
    rw [if_neg hi]
    simp [hacc]

/-- The in-order item loop of a mission upload: from a store holding the
first `length` items of an expected total `C = length + n` (with
`0 < n ≤` capacity ≤ 255), receiving items `length, …, C−1` in order —
the last flagged current — fills the store to size `C`, sets the current
index to `C − 1`, and answers each non-final item with a request for the
next sequence number and the final item with `accepted`. -/
theorem upload_loop (fr cmd au : Nat → Nat) :
    ∀ (n : Nat) (s : MavState), 0 < n →
      s.missions.length + n = s.mavlinkNewMissionListSize →
      s.mavlinkNewMissionListSize ≤ s.missionMaxSize →
      s.missionMaxSize ≤ 255 →
      (runReceive s ((List.range' s.missions.length n).map
        (fun k => InMsg.missionItem k (decide (k = s.mavlinkNewMissionListSize - 1))
          (fr k) (cmd k) (au k)))).1.missions.length = s.mavlinkNewMissionListSize ∧
      (runReceive s ((List.range' s.missions.length n).map
        (fun k => InMsg.missionItem k (decide (k = s.mavlinkNewMissionListSize - 1))
          (fr k) (cmd k) (au k)))).1.currentMissionIndex =
        Int.ofNat (s.mavlinkNewMissionListSize - 1) ∧
      (runReceive s ((List.range' s.missions.length n).map
        (fun k => InMsg.missionItem k (decide (k = s.mavlinkNewMissionListSize - 1))
          (fr k) (cmd k) (au k)))).2 =
        ((List.range' (s.missions.length + 1) (n - 1)).map
          fun k => MavOut.missionRequestOut k) ++ [MavOut.missionAckOut .accepted] := by
  intro n
  induction n with
  | zero => intro s h0; exact absurd h0 (Nat.lt_irrefl 0)
  | succ n ih =>
      intro s hpos hlen hle hmax
      have hroom : s.missions.length < s.missionMaxSize := by omega
      have hmsgs : (List.range' s.missions.length (n + 1)).map
          (fun k => InMsg.missionItem k (decide (k = s.mavlinkNewMissionListSize - 1))
            (fr k) (cmd k) (au k)) =
          InMsg.missionItem s.missions.length
              (decide (s.missions.length = s.mavlinkNewMissionListSize - 1))
              (fr s.missions.length) (cmd s.missions.length) (au s.missions.length) ::
            (List.range' (s.missions.length + 1) n).map
              (fun k => InMsg.missionItem k (decide (k = s.mavlinkNewMissionListSize - 1))
                (fr k) (cmd k) (au k)) := by
        rw [List.range'_succ]
        simp
      have hstep := receive_item_inseq s
        (decide (s.missions.length = s.mavlinkNewMissionListSize - 1))
        (fr s.missions.length) (cmd s.missions.length) (au s.missions.length)
        (by omega) hroom
      rcases Nat.eq_zero_or_pos n with hn0 | hnpos
      · -- final item: flagged current, triggers the accepted acknowledgment
        subst hn0
        have hlast : s.missions.length = s.mavlinkNewMissionListSize - 1 := by omega
        have hflag : decide (s.missions.length = s.mavlinkNewMissionListSize - 1) = true := by
          simp [hlast]
        have hacc : s.missions.length + 1 = s.mavlinkNewMissionListSize := by omega
        rw [hflag] at hstep
        simp [SetCurrentMission, Nat.lt_succ_self] at hstep
        rw [if_pos hacc] at hstep
        rw [hmsgs]
        simp only [runReceive]
        rw [hflag, hstep]
        dsimp only
        refine ⟨?_, ?_, ?_⟩
        · simp [hacc]
        · simp [hlast]
        · simp
      · -- intermediate item: not flagged, triggers the next request
        have hnotlast : ¬ (s.missions.length = s.mavlinkNewMissionListSize - 1) := by omega
        have hflag : decide (s.missions.length = s.mavlinkNewMissionListSize - 1) = false := by
          simp [hnotlast]
        have hnacc : ¬ (s.missions.length + 1 = s.mavlinkNewMissionListSize) := by omega
        rw [hflag] at hstep
        simp only [Bool.false_eq_true, if_false, if_neg hnacc] at hstep
        obtain ⟨ih1, ih2, ih3⟩ := ih
          { s with missions := s.missions ++ [⟨fr s.missions.length, cmd s.missions.length,
            au s.missions.length⟩] }
          hnpos (by simp; omega) (by simpa using hle) (by simpa using hmax)
        rw [hmsgs]
        simp only [runReceive]
        rw [hflag, hstep]
        dsimp only
        refine ⟨?_, ?_, ?_⟩
        · simpa using ih1
        · simpa using ih2
        · have hsplit : (List.range' (s.missions.length + 1) (n + 1 - 1)).map
              (fun k => MavOut.missionRequestOut k) =
              MavOut.missionRequestOut (s.missions.length + 1) ::
                (List.range' (s.missions.length + 1 + 1) (n - 1)).map
                  (fun k => MavOut.missionRequestOut k) := by
            have hn : n + 1 - 1 = (n - 1) + 1 := by omega
            rw [hn, List.range'_succ]
            simp
          rw [hsplit]
          simpa using ih3

/-- C5: a complete mission upload of count `C` (`0 < C ≤` capacity, with
the modelled capacity at most 255) received while not autonomous, whose
items arrive in order `0_…_C−1` with the last item flagged current, ends
with the store at size `C` and current mission index `C−1`; the count
announcement and every non-final item are answered with a request for
the next sequence number (0, 1, …, C−1) and the final item — the one
whose append result matches the expected total — with an `accepted`
acknowledgment. -/
theorem claim_C5 (s : MavState) (C : Nat) (fr cmd au : Nat → Nat)
    (hAuto : s.systemStatusStatus &&& 1 = 0)
    (hpos : 0 < C) (hle : C ≤ s.missionMaxSize) (hmax : s.missionMaxSize ≤ 255) :
    (runReceive s (.missionCount C :: uploadItemMsgs C fr cmd au)).1.missions.length = C ∧
    (runReceive s (.missionCount C :: uploadItemMsgs C fr cmd au)).1.currentMissionIndex =
      Int.ofNat (C - 1) ∧
    (runReceive s (.missionCount C :: uploadItemMsgs C fr cmd au)).2 =
      MavOut.missionRequestOut 0 ::
        (((List.range' 1 (C - 1)).map fun k => MavOut.missionRequestOut k) ++
          [MavOut.missionAckOut .accepted]) := by
  have hC : C % 65536 = C := Nat.mod_eq_of_lt (by omega)
  have hcount : MavLinkReceiveMsg s (.missionCount C) =
      ({ ClearMissionList s with mavlinkNewMissionListSize := C },
       [.missionRequestOut 0]) := by
    have hna : ¬ 0 < s.systemStatusStatus &&& 1 := by omega
    have h0 : ¬ (C = 0) := by omega
    have hgt : ¬ (C > s.missionMaxSize) := by omega
    simp only [MavLinkReceiveMsg]
    rw [if_neg hna]
    simp [ClearMissionList, hC, h0, hgt]
  obtain ⟨l1, l2, l3⟩ := upload_loop fr cmd au C
    { ClearMissionList s with mavlinkNewMissionListSize := C }
    hpos (by simp [ClearMissionList]) (by simpa [ClearMissionList] using hle)
    (by simpa [ClearMissionList] using hmax)
  have hmsgs : uploadItemMsgs C fr cmd au =
      (List.range' 0 C).map (fun k =>
        InMsg.missionItem k (decide (k = C - 1)) (fr k) (cmd k) (au k)) := by
    simp [uploadItemMsgs, List.range_eq_range']
  simp only [runReceive]
  rw [hcount]
  dsimp only
  rw [hmsgs]
  refine ⟨?_, ?_, ?_⟩
  · simpa [ClearMissionList] using l1
  · simpa [ClearMissionList] using l2
  · have l3' := l3
    simp only [ClearMissionList] at l3'
    simpa [ClearMissionList] using l3'

/-- Witness for C5: a two-item upload into the boot state. -/
theorem claim_C5_witness :
    (initialMavState.systemStatusStatus &&& 1 = 0 ∧ 0 < 2 ∧
      2 ≤ initialMavState.missionMaxSize ∧ initialMavState.missionMaxSize ≤ 255) ∧
    (runReceive initialMavState
        (.missionCount 2 :: uploadItemMsgs 2 (fun _ => 0) (fun _ => 16)
          (fun _ => 1))).1.missions.length = 2 :=
  ⟨⟨rfl, by decide, by decide, by decide⟩,
    (claim_C5 initialMavState 2 (fun _ => 0) (fun _ => 16) (fun _ => 1) rfl
      (by decide) (by decide) (by decide)).1⟩

end MavNode

namespace PrimaryNode

/-! ### Frame lemmas for the aggregator blocks

Each block touches one error (or status) bit and at most its own
snapshot field; these lemmas track one masked bit and the two snapshot
fields the claims need through every block. -/

/-- The ECAN block only writes `nodeStatus`. -/
theorem ecanErrorBlock_fields (s : PState) (inp : SensorInput) :
    (ecanErrorBlock s inp).nodeErrors = s.nodeErrors ∧
    (ecanErrorBlock s inp).lastGpsActive = s.lastGpsActive ∧
    (ecanErrorBlock s inp).lastRudderActive = s.lastRudderActive := by
  simp only [ecanErrorBlock]
  split_ifs <;> exact ⟨rfl, rfl, rfl⟩

/-- The GPS LED block only writes `lastGpsEnabled`. -/
theorem gpsLedBlock_fields (s : PState) (inp : SensorInput) :
    (gpsLedBlock s inp).nodeErrors = s.nodeErrors ∧
    (gpsLedBlock s inp).lastGpsActive = s.lastGpsActive ∧
    (gpsLedBlock s inp).lastRudderActive = s.lastRudderActive := by
  unfold gpsLedBlock
  split_ifs <;> exact ⟨rfl, rfl, rfl⟩

/-- The RC-node-enabled block only writes `nodeStatus` and
`lastRcNodeEnabled`. -/
theorem rcNodeEnabledBlock_fields (s : PState) (inp : SensorInput) :
    (rcNodeEnabledBlock s inp).nodeErrors = s.nodeErrors ∧
    (rcNodeEnabledBlock s inp).lastGpsActive = s.lastGpsActive ∧
    (rcNodeEnabledBlock s inp).lastRudderActive = s.lastRudderActive := by
  unfold rcNodeEnabledBlock
  split_ifs <;> exact ⟨rfl, rfl, rfl⟩

/-- The GPS-invalid block drives only `PRIMARY_NODE_STATUS_GPS_INVALID`. -/
theorem gpsInvalidBlock_bit (s : PState) (inp : SensorInput) (b : Nat)
    (h1 : PRIMARY_NODE_STATUS_GPS_INVALID &&& b = 0)
    (h2 : (65535 ^^^ PRIMARY_NODE_STATUS_GPS_INVALID) &&& b = b) :
    (gpsInvalidBlock s inp).nodeErrors &&& b = s.nodeErrors &&& b := by
  unfold gpsInvalidBlock
  split_ifs <;>
    first
    | rfl
    | exact land_lor_of_disjoint _ _ _ h1
    | exact land_land_of_supset _ _ _ h2

/-- After the GPS-invalid block the snapshot agrees with the reading. -/
theorem gpsInvalidBlock_last (s : PState) (inp : SensorInput) :
    (gpsInvalidBlock s inp).lastGpsActive = inp.gpsActive := by
  unfold gpsInvalidBlock
  split_ifs <;> cases hl : s.lastGpsActive <;> cases ha : inp.gpsActive <;>
    simp_all

/-- The GPS-invalid block keeps `lastRudderActive`. -/
theorem gpsInvalidBlock_rudder (s : PState) (inp : SensorInput) :
    (gpsInvalidBlock s inp).lastRudderActive = s.lastRudderActive := by
  unfold gpsInvalidBlock
  split_ifs <;> rfl

/-- With no GPS `active` edge the GPS-invalid block is the identity. -/
theorem gpsInvalidBlock_id (s : PState) (inp : SensorInput)
    (h : s.lastGpsActive = inp.gpsActive) :
    gpsInvalidBlock s inp = s := by
  unfold gpsInvalidBlock
  split_ifs <;> simp_all

/-- The GPS-invalid bit after the block, from the edge seen. -/
theorem gpsInvalidBlock_char (s : PState) (inp : SensorInput) :
    (gpsInvalidBlock s inp).nodeErrors &&& PRIMARY_NODE_STATUS_GPS_INVALID =
      (if s.lastGpsActive && !inp.gpsActive then PRIMARY_NODE_STATUS_GPS_INVALID
       else if !s.lastGpsActive && inp.gpsActive then 0
       else s.nodeErrors &&& PRIMARY_NODE_STATUS_GPS_INVALID) := by
  unfold gpsInvalidBlock
  split_ifs <;>
    first
    | rfl
    | exact land_lor_self _ _
    | exact land_land_of_disjoint _ _ _ (by decide)

/-- The GPS-timeout block drives only
`PRIMARY_NODE_RESET_GPS_DISCONNECTED`. -/
theorem gpsDisconnectBlock_bit (s : PState) (inp : SensorInput) (b : Nat)
    (h1 : PRIMARY_NODE_RESET_GPS_DISCONNECTED &&& b = 0)
    (h2 : (65535 ^^^ PRIMARY_NODE_RESET_GPS_DISCONNECTED) &&& b = b) :
    (gpsDisconnectBlock s inp).nodeErrors &&& b = s.nodeErrors &&& b := by
  unfold gpsDisconnectBlock
  split_ifs <;>
    first
    | rfl
    | exact land_lor_of_disjoint _ _ _ h1
    | exact land_land_of_supset _ _ _ h2

/-- The GPS-timeout block keeps both snapshot fields. -/
theorem gpsDisconnectBlock_fields (s : PState) (inp : SensorInput) :
    (gpsDisconnectBlock s inp).lastGpsActive = s.lastGpsActive ∧
    (gpsDisconnectBlock s inp).lastRudderActive = s.lastRudderActive := by
  unfold gpsDisconnectBlock
  split_ifs <;> exact ⟨rfl, rfl⟩

/-- The propulsion block drives only the e-stop bit. -/
theorem propBlock_bit (s : PState) (inp : SensorInput) (b : Nat)
    (h1 : PRIMARY_NODE_RESET_ESTOP_OR_ACS300_DISCON &&& b = 0)
    (h2 : (65535 ^^^ PRIMARY_NODE_RESET_ESTOP_OR_ACS300_DISCON) &&& b = b) :
    (propBlock s inp).nodeErrors &&& b = s.nodeErrors &&& b := by
  unfold propBlock
  split_ifs <;>
    first
    | rfl
    | exact land_lor_of_disjoint _ _ _ h1
    | exact land_land_of_supset _ _ _ h2

/-- The propulsion block keeps the GPS and rudder snapshot fields. -/
theorem propBlock_fields (s : PState) (inp : SensorInput) :
    (propBlock s inp).lastGpsActive = s.lastGpsActive ∧
    (propBlock s inp).lastRudderActive = s.lastRudderActive := by
  unfold propBlock
  split_ifs <;> exact ⟨rfl, rfl⟩

/-- The rudder-enabled block drives only the rudder-disconnected bit. -/
theorem rudderEnabledBlock_bit (s : PState) (inp : SensorInput) (b : Nat)
    (h1 : PRIMARY_NODE_RESET_RUDDER_DISCONNECTED &&& b = 0)
    (h2 : (65535 ^^^ PRIMARY_NODE_RESET_RUDDER_DISCONNECTED) &&& b = b) :
    (rudderEnabledBlock s inp).nodeErrors &&& b = s.nodeErrors &&& b := by
  unfold rudderEnabledBlock
  split_ifs <;>
    first
    | rfl
    | exact land_lor_of_disjoint _ _ _ h1
    | exact land_land_of_supset _ _ _ h2

/-- The rudder-enabled block keeps the GPS and rudder-active fields. -/
theorem rudderEnabledBlock_fields (s : PState) (inp : SensorInput) :
    (rudderEnabledBlock s inp).lastGpsActive = s.lastGpsActive ∧
    (rudderEnabledBlock s inp).lastRudderActive = s.lastRudderActive := by
  unfold rudderEnabledBlock
  split_ifs <;> exact ⟨rfl, rfl⟩

/-- The DST800 block drives only the water-speed-sensor bit. -/
theorem dst800Block_bit (s : PState) (inp : SensorInput) (b : Nat)
    (h1 : PRIMARY_NODE_RESET_DST800_DISCONNECTED &&& b = 0)
    (h2 : (65535 ^^^ PRIMARY_NODE_RESET_DST800_DISCONNECTED) &&& b = b) :
    (dst800Block s inp).nodeErrors &&& b = s.nodeErrors &&& b := by
  unfold dst800Block
  split_ifs <;>
    first
    | rfl
    | exact land_lor_of_disjoint _ _ _ h1
    | exact land_land_of_supset _ _ _ h2

/-- The DST800 block keeps the GPS and rudder snapshot fields. -/
theorem dst800Block_fields (s : PState) (inp : SensorInput) :
    (dst800Block s inp).lastGpsActive = s.lastGpsActive ∧
    (dst800Block s inp).lastRudderActive = s.lastRudderActive := by
  unfold dst800Block
  split_ifs <;> exact ⟨rfl, rfl⟩

/-- The IMU block drives only the IMU-disconnected bit. -/
theorem imuBlock_bit (s : PState) (inp : SensorInput) (b : Nat)
    (h1 : PRIMARY_NODE_RESET_IMU_DISCONNECTED &&& b = 0)
    (h2 : (65535 ^^^ PRIMARY_NODE_RESET_IMU_DISCONNECTED) &&& b = b) :
    (imuBlock s inp).nodeErrors &&& b = s.nodeErrors &&& b := by
  unfold imuBlock
  split_ifs <;>
    first
    | rfl
    | exact land_lor_of_disjoint _ _ _ h1
    | exact land_land_of_supset _ _ _ h2

/-- The IMU block keeps the GPS and rudder snapshot fields. -/
theorem imuBlock_fields (s : PState) (inp : SensorInput) :
    (imuBlock s inp).lastGpsActive = s.lastGpsActive ∧
    (imuBlock s inp).lastRudderActive = s.lastRudderActive := by
  unfold imuBlock
  split_ifs <;> exact ⟨rfl, rfl⟩

/-- The RC-override block drives only the manual-override bit. -/
theorem rcNodeActiveBlock_bit (s : PState) (inp : SensorInput) (b : Nat)
    (h1 : PRIMARY_NODE_RESET_MANUAL_OVERRIDE &&& b = 0)
    (h2 : (65535 ^^^ PRIMARY_NODE_RESET_MANUAL_OVERRIDE) &&& b = b) :
    (rcNodeActiveBlock s inp).1.nodeErrors &&& b = s.nodeErrors &&& b := by
  unfold rcNodeActiveBlock
  split_ifs <;>
    first
    | rfl
    | exact land_lor_of_disjoint _ _ _ h1
    | exact land_land_of_supset _ _ _ h2

/-- The RC-override block keeps the GPS and rudder snapshot fields. -/
theorem rcNodeActiveBlock_fields (s : PState) (inp : SensorInput) :
    (rcNodeActiveBlock s inp).1.lastGpsActive = s.lastGpsActive ∧
    (rcNodeActiveBlock s inp).1.lastRudderActive = s.lastRudderActive := by
  unfold rcNodeActiveBlock
  split_ifs <;> exact ⟨rfl, rfl⟩

/-- The RC-override block never emits an RTB notification. -/
theorem rcNodeActiveBlock_notif (s : PState) (inp : SensorInput) :
    notifCount (rcNodeActiveBlock s inp).2 = 0 := by
  unfold rcNodeActiveBlock PrimaryNodeMuxOutputs notifCount
  split_ifs <;> simp
  split_ifs <;> simp

/-- The rudder-active block drives only
`PRIMARY_NODE_RESET_RUDDER_ERRORS`. -/
theorem rudderActiveBlock_bit (s : PState) (inp : SensorInput) (b : Nat)
    (h1 : PRIMARY_NODE_RESET_RUDDER_ERRORS &&& b = 0)
    (h2 : (65535 ^^^ PRIMARY_NODE_RESET_RUDDER_ERRORS) &&& b = b) :
    (rudderActiveBlock s inp).nodeErrors &&& b = s.nodeErrors &&& b := by
  unfold rudderActiveBlock
  split_ifs <;>
    first
    | rfl
    | exact land_lor_of_disjoint _ _ _ h1
    | exact land_land_of_supset _ _ _ h2

/-- The rudder-active block keeps `lastGpsActive`. -/
theorem rudderActiveBlock_gps (s : PState) (inp : SensorInput) :
    (rudderActiveBlock s inp).lastGpsActive = s.lastGpsActive := by
  unfold rudderActiveBlock
  split_ifs <;> rfl

/-- The rudder-error bit after the rudder-active block, from the edge
seen: set on active→inactive, cleared on inactive→active only when the
rudder is enabled, otherwise kept. -/
theorem rudderActiveBlock_char (s : PState) (inp : SensorInput) :
    (rudderActiveBlock s inp).nodeErrors &&& PRIMARY_NODE_RESET_RUDDER_ERRORS =
      (if s.lastRudderActive && !inp.rudderActive then
        PRIMARY_NODE_RESET_RUDDER_ERRORS
       else if inp.rudderEnabled && !s.lastRudderActive && inp.rudderActive then 0
       else s.nodeErrors &&& PRIMARY_NODE_RESET_RUDDER_ERRORS) := by
  unfold rudderActiveBlock
  split_ifs <;>
    first
    | rfl
    | exact land_lor_self _ _
    | exact land_land_of_disjoint _ _ _ (by decide)

/-- The calibrating block drives only the calibrating bit. -/
theorem calibratingBlock_bit (s : PState) (inp : SensorInput) (b : Nat)
    (h1 : PRIMARY_NODE_RESET_CALIBRATING &&& b = 0)
    (h2 : (65535 ^^^ PRIMARY_NODE_RESET_CALIBRATING) &&& b = b) :
    (calibratingBlock s inp).nodeErrors &&& b = s.nodeErrors &&& b := by
  unfold calibratingBlock
  split_ifs <;>
    first
    | rfl
    | exact land_lor_of_disjoint _ _ _ h1
    | exact land_land_of_supset _ _ _ h2

/-- The calibrating block keeps both snapshot fields. -/
theorem calibratingBlock_fields (s : PState) (inp : SensorInput) :
    (calibratingBlock s inp).lastGpsActive = s.lastGpsActive ∧
    (calibratingBlock s inp).lastRudderActive = s.lastRudderActive := by
  unfold calibratingBlock
  split_ifs <;> exact ⟨rfl, rfl⟩

/-- The uncalibrated block drives only the uncalibrated bit. -/
theorem uncalibratedBlock_bit (s : PState) (inp : SensorInput) (b : Nat)
    (h1 : PRIMARY_NODE_RESET_UNCALIBRATED &&& b = 0)
    (h2 : (65535 ^^^ PRIMARY_NODE_RESET_UNCALIBRATED) &&& b = b) :
    (uncalibratedBlock s inp).nodeErrors &&& b = s.nodeErrors &&& b := by
  unfold uncalibratedBlock
  split_ifs <;>
    first
    | rfl
    | exact land_lor_of_disjoint _ _ _ h1
    | exact land_land_of_supset _ _ _ h2

/-- The uncalibrated block keeps both snapshot fields. -/
theorem uncalibratedBlock_fields (s : PState) (inp : SensorInput) :
    (uncalibratedBlock s inp).lastGpsActive = s.lastGpsActive ∧
    (uncalibratedBlock s inp).lastRudderActive = s.lastRudderActive := by
  unfold uncalibratedBlock
  split_ifs <;> exact ⟨rfl, rfl⟩

/-- The GCS block drives only the ground-station bit. -/
theorem gcsBlock_bit (s : PState) (inp : SensorInput) (b : Nat)
    (h1 : PRIMARY_NODE_RESET_GCS_DISCONNECTED &&& b = 0)
    (h2 : (65535 ^^^ PRIMARY_NODE_RESET_GCS_DISCONNECTED) &&& b = b) :
    (gcsBlock s inp).nodeErrors &&& b = s.nodeErrors &&& b := by
  unfold gcsBlock
  split_ifs <;>
    first
    | rfl
    | exact land_lor_of_disjoint _ _ _ h1
    | exact land_land_of_supset _ _ _ h2

/-- The GCS block keeps both snapshot fields. -/
theorem gcsBlock_fields (s : PState) (inp : SensorInput) :
    (gcsBlock s inp).lastGpsActive = s.lastGpsActive ∧
    (gcsBlock s inp).lastRudderActive = s.lastRudderActive := by
  unfold gcsBlock
  split_ifs <;> exact ⟨rfl, rfl⟩

/-- `aggregate` unfolded to the block composition. -/
theorem aggregate_fst (s : PState) (inp : SensorInput) :
    (aggregate s inp).1 =
      gcsBlock (uncalibratedBlock (calibratingBlock (rudderActiveBlock
        ((rcNodeActiveBlock (imuBlock (dst800Block (rcNodeEnabledBlock
          (rudderEnabledBlock (propBlock (gpsInvalidBlock (gpsDisconnectBlock
            (gpsInvalidBlock (gpsLedBlock (ecanErrorBlock s inp) inp) inp) inp)
            inp) inp) inp) inp) inp) inp) inp).1) inp) inp) inp) inp := by
  rfl

/-- `aggregate`'s outputs come only from the RC-override block. -/
theorem aggregate_snd (s : PState) (inp : SensorInput) :
    (aggregate s inp).2 =
      (rcNodeActiveBlock (imuBlock (dst800Block (rcNodeEnabledBlock
        (rudderEnabledBlock (propBlock (gpsInvalidBlock (gpsDisconnectBlock
          (gpsInvalidBlock (gpsLedBlock (ecanErrorBlock s inp) inp) inp) inp)
          inp) inp) inp) inp) inp) inp) inp).2 := by
  rfl

/-- `mainLoopBody` unfolded. -/
theorem mainLoopBody_eq (s : PState) (inp : SensorInput) :
    mainLoopBody s inp =
      ((rtbCheck (aggregate s inp).1).1,
       (aggregate s inp).2 ++ (rtbCheck (aggregate s inp).1).2) := by
  rfl

/-- The GPS-invalid bit of the aggregated state, per the edge seen this
tick: the only writer is the (duplicated) GPS-invalid block, and its
second run sees no edge. -/
theorem aggregate_gps (s : PState) (inp : SensorInput) :
    (aggregate s inp).1.nodeErrors &&& PRIMARY_NODE_STATUS_GPS_INVALID =
      (if s.lastGpsActive && !inp.gpsActive then PRIMARY_NODE_STATUS_GPS_INVALID
       else if !s.lastGpsActive && inp.gpsActive then 0
       else s.nodeErrors &&& PRIMARY_NODE_STATUS_GPS_INVALID) := by
  rw [aggregate_fst]
  rw [gcsBlock_bit _ _ _ (by decide) (by decide)]
  rw [uncalibratedBlock_bit _ _ _ (by decide) (by decide)]
  rw [calibratingBlock_bit _ _ _ (by decide) (by decide)]
  rw [rudderActiveBlock_bit _ _ _ (by decide) (by decide)]
  rw [rcNodeActiveBlock_bit _ _ _ (by decide) (by decide)]
  rw [imuBlock_bit _ _ _ (by decide) (by decide)]
  rw [dst800Block_bit _ _ _ (by decide) (by decide)]
  rw [(rcNodeEnabledBlock_fields _ _).1]
  rw [rudderEnabledBlock_bit _ _ _ (by decide) (by decide)]
  rw [propBlock_bit _ _ _ (by decide) (by decide)]
  rw [gpsInvalidBlock_id
        (gpsDisconnectBlock (gpsInvalidBlock (gpsLedBlock (ecanErrorBlock s inp)
          inp) inp) inp) inp
        (by rw [(gpsDisconnectBlock_fields _ _).1, gpsInvalidBlock_last])]
  rw [gpsDisconnectBlock_bit _ _ _ (by decide) (by decide)]
  rw [gpsInvalidBlock_char]
  rw [(gpsLedBlock_fields _ _).2.1, (ecanErrorBlock_fields _ _).2.1]
  rw [(gpsLedBlock_fields _ _).1, (ecanErrorBlock_fields _ _).1]

/-- The rudder-errors bit of the aggregated state, per the edge seen
this tick: the only writer is the rudder-active block. -/
theorem aggregate_rudder (s : PState) (inp : SensorInput) :
    (aggregate s inp).1.nodeErrors &&& PRIMARY_NODE_RESET_RUDDER_ERRORS =
      (if s.lastRudderActive && !inp.rudderActive then
        PRIMARY_NODE_RESET_RUDDER_ERRORS
       else if inp.rudderEnabled && !s.lastRudderActive && inp.rudderActive then 0
       else s.nodeErrors &&& PRIMARY_NODE_RESET_RUDDER_ERRORS) := by
  rw [aggregate_fst]
  rw [gcsBlock_bit _ _ _ (by decide) (by decide)]
  rw [uncalibratedBlock_bit _ _ _ (by decide) (by decide)]
  rw [calibratingBlock_bit _ _ _ (by decide) (by decide)]
  rw [rudderActiveBlock_char]
  rw [(rcNodeActiveBlock_fields _ _).2, (imuBlock_fields _ _).2,
      (dst800Block_fields _ _).2, (rcNodeEnabledBlock_fields _ _).2.2,
      (rudderEnabledBlock_fields _ _).2, (propBlock_fields _ _).2,
      gpsInvalidBlock_rudder, (gpsDisconnectBlock_fields _ _).2,
      gpsInvalidBlock_rudder, (gpsLedBlock_fields _ _).2.2,
      (ecanErrorBlock_fields _ _).2.2]
  rw [rcNodeActiveBlock_bit _ _ _ (by decide) (by decide)]
  rw [imuBlock_bit _ _ _ (by decide) (by decide)]
  rw [dst800Block_bit _ _ _ (by decide) (by decide)]
  rw [(rcNodeEnabledBlock_fields _ _).1]
  rw [rudderEnabledBlock_bit _ _ _ (by decide) (by decide)]
  rw [propBlock_bit _ _ _ (by decide) (by decide)]
  rw [gpsInvalidBlock_bit _ _ _ (by decide) (by decide)]
  rw [gpsDisconnectBlock_bit _ _ _ (by decide) (by decide)]
  rw [gpsInvalidBlock_bit _ _ _ (by decide) (by decide)]
  rw [(gpsLedBlock_fields _ _).1, (ecanErrorBlock_fields _ _).1]

/-- No aggregator block touches the RTB latch bit. -/
theorem aggregate_rtb (s : PState) (inp : SensorInput) :
    (aggregate s inp).1.nodeErrors &&& PRIMARY_NODE_RESET_RTB =
      s.nodeErrors &&& PRIMARY_NODE_RESET_RTB := by
  rw [aggregate_fst]
  rw [gcsBlock_bit _ _ _ (by decide) (by decide),
      uncalibratedBlock_bit _ _ _ (by decide) (by decide),
      calibratingBlock_bit _ _ _ (by decide) (by decide),
      rudderActiveBlock_bit _ _ _ (by decide) (by decide),
      rcNodeActiveBlock_bit _ _ _ (by decide) (by decide),
      imuBlock_bit _ _ _ (by decide) (by decide),
      dst800Block_bit _ _ _ (by decide) (by decide),
      (rcNodeEnabledBlock_fields _ _).1,
      rudderEnabledBlock_bit _ _ _ (by decide) (by decide),
      propBlock_bit _ _ _ (by decide) (by decide),
      gpsInvalidBlock_bit _ _ _ (by decide) (by decide),
      gpsDisconnectBlock_bit _ _ _ (by decide) (by decide),
      gpsInvalidBlock_bit _ _ _ (by decide) (by decide),
      (gpsLedBlock_fields _ _).1, (ecanErrorBlock_fields _ _).1]

/-- The RTB check only ever ORs the RTB latch into `nodeErrors`: any
other bit is preserved. -/
theorem rtbCheck_bit (s : PState) (b : Nat)
    (h1 : PRIMARY_NODE_RESET_RTB &&& b = 0) :
    (rtbCheck s).1.nodeErrors &&& b = s.nodeErrors &&& b := by
  simp only [rtbCheck]
  split_ifs <;> first | rfl | exact land_lor_of_disjoint _ _ _ h1

/-- The RTB latch bit after the check equals its old value or is set. -/
theorem rtbCheck_latch (s : PState) :
    (rtbCheck s).1.nodeErrors &&& PRIMARY_NODE_RESET_RTB =
      s.nodeErrors &&& PRIMARY_NODE_RESET_RTB ∨
    (rtbCheck s).1.nodeErrors &&& PRIMARY_NODE_RESET_RTB =
      PRIMARY_NODE_RESET_RTB := by
  simp only [rtbCheck]
  split_ifs <;> first | exact Or.inl rfl | exact Or.inr (land_lor_self _ _)

/-- Once set, the RTB latch survives the RTB check. -/
theorem rtbCheck_latch_mono (s : PState)
    (h : s.nodeErrors &&& PRIMARY_NODE_RESET_RTB ≠ 0) :
    (rtbCheck s).1.nodeErrors &&& PRIMARY_NODE_RESET_RTB ≠ 0 := by
  rcases rtbCheck_latch s with h1 | h1 <;> rw [h1]
  · exact h
  · decide

/-- Exact characterization of when the RTB check notifies the operator:
only on a changed error state, autonomous, nonzero RTB subset, latch
still clear. -/
theorem rtbCheck_notif (s : PState) :
    notifCount (rtbCheck s).2 =
      (if s.nodeErrors ≠ s.lastErrorState ∧ IS_AUTONOMOUS s = true ∧
          s.nodeErrors &&& RTB_RESET_MASK ≠ 0 ∧
          s.nodeErrors &&& PRIMARY_NODE_RESET_RTB = 0 then 1 else 0) := by
  simp only [rtbCheck]
  split_ifs <;> simp_all [notifCount]

/-- The neutral actuator command is always in the RTB check's output
when the error state changed while autonomous with a nonzero RTB
subset. -/
theorem rtbCheck_actuators (s : PState)
    (h1 : s.nodeErrors ≠ s.lastErrorState)
    (h2 : IS_AUTONOMOUS s = true)
    (h3 : s.nodeErrors &&& RTB_RESET_MASK ≠ 0) :
    POut.actuatorsCmd 0 0 true ∈ (rtbCheck s).2 := by
  simp only [rtbCheck]
  split_ifs <;> simp_all

/-- If the RTB check notified, the latch is set afterwards. -/
theorem rtbCheck_notif_latch (s : PState)
    (h : notifCount (rtbCheck s).2 = 1) :
    (rtbCheck s).1.nodeErrors &&& PRIMARY_NODE_RESET_RTB =
      PRIMARY_NODE_RESET_RTB := by
  simp only [rtbCheck] at h ⊢
  split_ifs at h ⊢ <;> first | exact land_lor_self _ _ | simp_all [notifCount]

/-- `notifCount` is additive over trace concatenation. -/
theorem notifCount_append (l1 l2 : List POut) :
    notifCount (l1 ++ l2) = notifCount l1 + notifCount l2 := by
  simp [notifCount, List.filter_append]

/-- All of a tick's RTB notifications come from the RTB check. -/
theorem mainLoopBody_notif (s : PState) (inp : SensorInput) :
    notifCount (mainLoopBody s inp).2 =
      notifCount (rtbCheck (aggregate s inp).1).2 := by
  rw [mainLoopBody_eq]
  dsimp only
  rw [notifCount_append, aggregate_snd, rcNodeActiveBlock_notif]
  exact Nat.zero_add _

/-- The RTB latch survives a whole tick. -/
theorem mainLoopBody_latch (s : PState) (inp : SensorInput)
    (h : s.nodeErrors &&& PRIMARY_NODE_RESET_RTB ≠ 0) :
    (mainLoopBody s inp).1.nodeErrors &&& PRIMARY_NODE_RESET_RTB ≠ 0 := by
  rw [mainLoopBody_eq]
  dsimp only
  apply rtbCheck_latch_mono
  rw [aggregate_rtb]
  exact h

/-- A tick started with the RTB latch set emits no notification. -/
theorem mainLoopBody_notif_latch (s : PState) (inp : SensorInput)
    (h : s.nodeErrors &&& PRIMARY_NODE_RESET_RTB ≠ 0) :
    notifCount (mainLoopBody s inp).2 = 0 := by
  rw [mainLoopBody_notif, rtbCheck_notif, if_neg]
  intro hc
  have h0 := hc.2.2.2
  rw [aggregate_rtb] at h0
  exact h h0

/-- While the RTB latch stays set, no run of the outer loop ever
re-notifies, whatever the sensors do. -/
theorem runMain_no_notif (s : PState) (inps : List SensorInput)
    (h : s.nodeErrors &&& PRIMARY_NODE_RESET_RTB ≠ 0) :
    notifCount (runMain s inps).2 = 0 := by
  induction inps generalizing s with
  | nil => rfl
  | cons inp rest ih =>
      have hl := mainLoopBody_latch s inp h
      have hn := mainLoopBody_notif_latch s inp h
      simp only [runMain]
      rcases h1 : mainLoopBody s inp with ⟨s1, o1⟩
      rw [h1] at hl hn
      dsimp only at hl hn ⊢
      have h2 := ih s1 hl
      rcases h3 : runMain s1 rest with ⟨s2, o2⟩
      rw [h3] at h2
      dsimp only at h2 ⊢
      rw [notifCount_append, hn, h2]

/-- A cleared automode bit means the node is not autonomous. -/
theorem IS_AUTONOMOUS_eq_false (s : PState)
    (h : s.nodeStatus &&& PRIMARY_NODE_STATUS_AUTOMODE = 0) :
    IS_AUTONOMOUS s = false := by
  simp [IS_AUTONOMOUS, h]

/-- C1: on every tick whose fault bitmask differs from the previous
tick's, if the node is autonomous and the RTB-qualifying subset is
nonzero, the neutral actuator command (centered rudder, zero throttle,
forced) is transmitted; the operator notification fires exactly when
additionally the RTB latch was still clear (the rising edge), the latch
is set by that notification, and while the latch stays set no run of
the outer loop re-notifies. -/
theorem claim_C1 (s : PState) (inps : List SensorInput) :
    (s.nodeErrors ≠ s.lastErrorState → IS_AUTONOMOUS s = true →
      s.nodeErrors &&& RTB_RESET_MASK ≠ 0 →
      POut.actuatorsCmd 0 0 true ∈ (rtbCheck s).2) ∧
    (notifCount (rtbCheck s).2 =
      (if s.nodeErrors ≠ s.lastErrorState ∧ IS_AUTONOMOUS s = true ∧
          s.nodeErrors &&& RTB_RESET_MASK ≠ 0 ∧
          s.nodeErrors &&& PRIMARY_NODE_RESET_RTB = 0 then 1 else 0)) ∧
    (notifCount (rtbCheck s).2 = 1 →
      (rtbCheck s).1.nodeErrors &&& PRIMARY_NODE_RESET_RTB =
        PRIMARY_NODE_RESET_RTB) ∧
    (s.nodeErrors &&& PRIMARY_NODE_RESET_RTB ≠ 0 →
      notifCount (runMain s inps).2 = 0) :=
  ⟨rtbCheck_actuators s, rtbCheck_notif s, rtbCheck_notif_latch s,
   runMain_no_notif s inps⟩

/-- Concrete check of C1: a fresh fault (rudder errors, mask 16) while
autonomous forces the neutral command and one notification and sets the
latch; with the latch set, a quiet tick re-notifies nothing. -/
theorem claim_C1_witness :
    POut.actuatorsCmd 0 0 true ∈
      (rtbCheck { initialPState with nodeStatus := 1, nodeErrors := 16 }).2 ∧
    notifCount
      (rtbCheck { initialPState with nodeStatus := 1, nodeErrors := 16 }).2 = 1 ∧
    (rtbCheck { initialPState with nodeStatus := 1, nodeErrors := 16 }).1.nodeErrors &&&
      PRIMARY_NODE_RESET_RTB = PRIMARY_NODE_RESET_RTB ∧
    notifCount
      (runMain { initialPState with nodeStatus := 1, nodeErrors := 2064 }
        [quietInput]).2 = 0 :=
  ⟨(claim_C1 { initialPState with nodeStatus := 1, nodeErrors := 16 } []).1
      (by decide) (by decide) (by decide),
   ((claim_C1 { initialPState with nodeStatus := 1, nodeErrors := 16 } []).2.1).trans
      (by decide),
   (claim_C1 { initialPState with nodeStatus := 1, nodeErrors := 16 } []).2.2.1
      (by decide),
   (claim_C1 { initialPState with nodeStatus := 1, nodeErrors := 2064 }
      [quietInput]).2.2.2 (by decide)⟩

/-- C2: a request to switch into autonomous mode from manual mode while
the RTB-qualifying subset of the fault bitmask is nonzero is a complete
no-op (state and outputs), and any call made while autonomous leaves
autonomous mode and leaves the RTB latch bit clear. -/
theorem claim_C2 (s : PState) (m : PrimaryNodeMode) :
    (m = .autonomous → IS_AUTONOMOUS s = false →
      s.nodeErrors &&& RTB_RESET_MASK ≠ 0 → SetAutoMode s m = (s, [])) ∧
    (IS_AUTONOMOUS s = true →
      IS_AUTONOMOUS (SetAutoMode s m).1 = false ∧
      (SetAutoMode s m).1.nodeErrors &&& PRIMARY_NODE_RESET_RTB = 0) := by
  constructor
  · intro hm ha hr
    simp [SetAutoMode, hm, ha, hr]
  · intro ha
    have hcond : ¬(m = .autonomous ∧ ¬(IS_AUTONOMOUS s = true) ∧
        s.nodeErrors &&& RTB_RESET_MASK = 0) := fun h => h.2.1 ha
    simp only [SetAutoMode]
    rw [if_neg hcond, if_pos ha]
    split_ifs with hl
    · exact ⟨IS_AUTONOMOUS_eq_false _ (land_land_of_disjoint _ _ _ (by decide)),
             land_land_of_disjoint _ _ _ (by decide)⟩
    · refine ⟨IS_AUTONOMOUS_eq_false _ (land_land_of_disjoint _ _ _ (by decide)), ?_⟩
      exact not_ne_iff.mp hl

/-- Concrete check of C2: with fault mask 16 in manual mode the switch
request changes nothing; exiting from autonomous with the latch set
clears the automode bit and the latch. -/
theorem claim_C2_witness :
    SetAutoMode { initialPState with nodeErrors := 16 } .autonomous =
      ({ initialPState with nodeErrors := 16 }, []) ∧
    IS_AUTONOMOUS
      (SetAutoMode { initialPState with nodeStatus := 1, nodeErrors := 2048 }
        .manual).1 = false ∧
    (SetAutoMode { initialPState with nodeStatus := 1, nodeErrors := 2048 }
        .manual).1.nodeErrors &&& PRIMARY_NODE_RESET_RTB = 0 :=
  ⟨(claim_C2 { initialPState with nodeErrors := 16 } .autonomous).1
      rfl (by decide) (by decide),
   ((claim_C2 { initialPState with nodeStatus := 1, nodeErrors := 2048 }
      .manual).2 (by decide)).1,
   ((claim_C2 { initialPState with nodeStatus := 1, nodeErrors := 2048 }
      .manual).2 (by decide)).2⟩

/-- C9: over one tick, the GPS-invalid sticky bit is set on the GPS
active→inactive edge and cleared unconditionally on the
inactive→active edge, while the rudder-errors sticky bit is set on the
rudder active→inactive edge but cleared on the inactive→active edge
only when the rudder is also enabled; without such an edge each bit is
unchanged. -/
theorem claim_C9 (s : PState) (inp : SensorInput) :
    ((mainLoopBody s inp).1.nodeErrors &&& PRIMARY_NODE_STATUS_GPS_INVALID =
      (if s.lastGpsActive && !inp.gpsActive then PRIMARY_NODE_STATUS_GPS_INVALID
       else if !s.lastGpsActive && inp.gpsActive then 0
       else s.nodeErrors &&& PRIMARY_NODE_STATUS_GPS_INVALID)) ∧
    ((mainLoopBody s inp).1.nodeErrors &&& PRIMARY_NODE_RESET_RUDDER_ERRORS =
      (if s.lastRudderActive && !inp.rudderActive then
        PRIMARY_NODE_RESET_RUDDER_ERRORS
       else if inp.rudderEnabled && !s.lastRudderActive && inp.rudderActive then 0
       else s.nodeErrors &&& PRIMARY_NODE_RESET_RUDDER_ERRORS)) := by
  constructor
  · rw [mainLoopBody_eq]
    dsimp only
    rw [rtbCheck_bit _ _ (by decide), aggregate_gps]
  · rw [mainLoopBody_eq]
    dsimp only
    rw [rtbCheck_bit _ _ (by decide), aggregate_rudder]

end PrimaryNode

end Autoboat
